import Mathlib

/-!
# winemac.drv Vulkan shim (`dlls/winemac.drv/vulkan.c`)

A shallow embedding of the MoltenVK translation shim of the Mac driver and
theorems about it.

Conventions of the embedding

* A C pointer or handle is a natural number, `0` being `NULL` / `VK_NULL_HANDLE`.
* A C string is a `String` holding the characters before the terminating NUL;
  a `const char *` that may be `NULL` is an `Option String`.
* Calls to collaborators (host library, heap, window registry, Metal helpers)
  take their results from an explicit environment record and are recorded, in
  order, in a trace of `Event`s.  Diagnostic output (`TRACE`, `ERR`, `FIXME`)
  is not modelled.
* Reading through a pointer that does not address a live object is a fault,
  reported as `none`.
* A descriptor the caller passes by pointer enters as its contents before the
  call; the results of `wine_vk_instance_convert_create_info` and
  `macdrv_vkCreateSwapchainKHR` carry its contents after the call.
-/

namespace WineMacVulkan

/-! ## Library binder: `wine_vk_init` -/

/-- The host dynamic loader seen by one call of `wine_vk_init`:
`wine_dlopen` is the handle returned for `SONAME_LIBMOLTENVK` (`0` on
failure) and `wine_dlsym h f` the address returned for symbol `f` of the
library `h` (`0` when the symbol cannot be resolved). -/
structure Loader where
  wine_dlopen : Nat
  wine_dlsym : Nat → String → Nat

/-- The symbols bound by the `LOAD_FUNCPTR` lines of `wine_vk_init`, in
source order. -/
def required_symbols : List String :=
  [ "vkAcquireNextImageKHR"
  , "vkCreateInstance"
  , "vkCreateSwapchainKHR"
  , "vkCreateMacOSSurfaceMVK"
  , "vkDestroyInstance"
  , "vkDestroySurfaceKHR"
  , "vkDestroySwapchainKHR"
  , "vkEnumerateInstanceExtensionProperties"
  , "vkGetDeviceProcAddr"
  , "vkGetInstanceProcAddr"
  , "vkGetPhysicalDeviceSurfaceCapabilitiesKHR"
  , "vkGetPhysicalDeviceSurfaceFormatsKHR"
  , "vkGetPhysicalDeviceSurfacePresentModesKHR"
  , "vkGetPhysicalDeviceSurfaceSupportKHR"
  , "vkGetSwapchainImagesKHR"
  , "vkQueuePresentKHR" ]

/-- The static storage touched by `wine_vk_init`: its two function-local
statics and the file-scope host pointers `pvk...`, the latter indexed by the
symbol name `f` of `p##f`. -/
structure InitState where
  init_done : Bool
  vulkan_handle : Nat
  pfn : String → Nat

/-- Static storage at program start: everything zero-initialised. -/
def InitState.initial : InitState :=
  { init_done := false, vulkan_handle := 0, pfn := fun _ => 0 }

/-- The expansion of the `LOAD_FUNCPTR(f)` lines for the symbols `fs`:
each assigns `p##f = wine_dlsym(vulkan_handle, #f, ...)` and returns `FALSE`
from `wine_vk_init` at the first `NULL`. The boolean is `true` when every
line was passed. -/
def load_funcptrs (dlsym : String → Nat) :
    List String → (String → Nat) → Bool × (String → Nat)
  | [], pfn => (true, pfn)
  | f :: fs, pfn =>
    let v := dlsym f
    let pfn1 : String → Nat := fun g => if g = f then v else pfn g
    if v = 0 then (false, pfn1) else load_funcptrs dlsym fs pfn1

/-- The function `wine_vk_init` (vulkan.c:90-124): the returned `BOOL` and the
static storage after the call. -/
def wine_vk_init (ld : Loader) (st : InitState) : Bool × InitState :=
  if st.init_done then (decide (st.vulkan_handle ≠ 0), st)
  else
    let st1 : InitState := { st with init_done := true }
    let h := ld.wine_dlopen
    let st2 : InitState := { st1 with vulkan_handle := h }
    if h = 0 then (false, st2)
    else
      let r := load_funcptrs (ld.wine_dlsym h) required_symbols st2.pfn
      if r.1 then (true, { st2 with pfn := r.2 })
      else (false, { st2 with pfn := r.2 })

/-- A sequence of calls of `wine_vk_init`, one loader environment per call:
the list of returned values, oldest first, and the final static storage. -/
def wine_vk_init_calls : List Loader → InitState → List Bool × InitState
  | [], st => ([], st)
  | ld :: lds, st =>
    let r := wine_vk_init ld st
    let rest := wine_vk_init_calls lds r.2
    (r.1 :: rest.1, rest.2)

/-! ## Dispatch table and proc-address resolution -/

/-- The seventeen wrappers `macdrv_vk...` defined in vulkan.c. -/
inductive MacdrvProc where
  | macdrv_vkAcquireNextImageKHR
  | macdrv_vkCreateInstance
  | macdrv_vkCreateSwapchainKHR
  | macdrv_vkCreateWin32SurfaceKHR
  | macdrv_vkDestroyInstance
  | macdrv_vkDestroySurfaceKHR
  | macdrv_vkDestroySwapchainKHR
  | macdrv_vkEnumerateInstanceExtensionProperties
  | macdrv_vkGetDeviceProcAddr
  | macdrv_vkGetInstanceProcAddr
  | macdrv_vkGetPhysicalDeviceSurfaceCapabilitiesKHR
  | macdrv_vkGetPhysicalDeviceSurfaceFormatsKHR
  | macdrv_vkGetPhysicalDeviceSurfacePresentModesKHR
  | macdrv_vkGetPhysicalDeviceSurfaceSupportKHR
  | macdrv_vkGetPhysicalDeviceWin32PresentationSupportKHR
  | macdrv_vkGetSwapchainImagesKHR
  | macdrv_vkQueuePresentKHR
  deriving DecidableEq, Repr

/-- A code pointer (`void *` holding a function address): `NULL`, the address
of one of the wrappers of this file, or an address inside the host library. -/
inductive FnPtr where
  | null
  | macdrv (f : MacdrvProc)
  | host (addr : Nat)
  deriving DecidableEq, Repr

/-- Modelled from the spec: `struct vulkan_funcs` is declared in
wine/vulkan_driver.h, which is not among the source files. The fields are the
`p_vk...` members vulkan.c reads, in the order of the dispatch table listed
in section 6 of the specification (the order of the positional initialiser
at vulkan.c:485-504). -/
structure vulkan_funcs where
  p_vkAcquireNextImageKHR : FnPtr
  p_vkCreateInstance : FnPtr
  p_vkCreateSwapchainKHR : FnPtr
  p_vkCreateWin32SurfaceKHR : FnPtr
  p_vkDestroyInstance : FnPtr
  p_vkDestroySurfaceKHR : FnPtr
  p_vkDestroySwapchainKHR : FnPtr
  p_vkEnumerateInstanceExtensionProperties : FnPtr
  p_vkGetDeviceProcAddr : FnPtr
  p_vkGetInstanceProcAddr : FnPtr
  p_vkGetPhysicalDeviceSurfaceCapabilitiesKHR : FnPtr
  p_vkGetPhysicalDeviceSurfaceFormatsKHR : FnPtr
  p_vkGetPhysicalDeviceSurfacePresentModesKHR : FnPtr
  p_vkGetPhysicalDeviceSurfaceSupportKHR : FnPtr
  p_vkGetPhysicalDeviceWin32PresentationSupportKHR : FnPtr
  p_vkGetSwapchainImagesKHR : FnPtr
  p_vkQueuePresentKHR : FnPtr
  deriving DecidableEq, Repr

/-- The static table `vulkan_funcs` of vulkan.c:485-504 (named apart from the
struct type, with which it shares its C name). -/
def macdrv_vulkan_funcs : vulkan_funcs :=
  { p_vkAcquireNextImageKHR := .macdrv .macdrv_vkAcquireNextImageKHR
    p_vkCreateInstance := .macdrv .macdrv_vkCreateInstance
    p_vkCreateSwapchainKHR := .macdrv .macdrv_vkCreateSwapchainKHR
    p_vkCreateWin32SurfaceKHR := .macdrv .macdrv_vkCreateWin32SurfaceKHR
    p_vkDestroyInstance := .macdrv .macdrv_vkDestroyInstance
    p_vkDestroySurfaceKHR := .macdrv .macdrv_vkDestroySurfaceKHR
    p_vkDestroySwapchainKHR := .macdrv .macdrv_vkDestroySwapchainKHR
    p_vkEnumerateInstanceExtensionProperties :=
      .macdrv .macdrv_vkEnumerateInstanceExtensionProperties
    p_vkGetDeviceProcAddr := .macdrv .macdrv_vkGetDeviceProcAddr
    p_vkGetInstanceProcAddr := .macdrv .macdrv_vkGetInstanceProcAddr
    p_vkGetPhysicalDeviceSurfaceCapabilitiesKHR :=
      .macdrv .macdrv_vkGetPhysicalDeviceSurfaceCapabilitiesKHR
    p_vkGetPhysicalDeviceSurfaceFormatsKHR :=
      .macdrv .macdrv_vkGetPhysicalDeviceSurfaceFormatsKHR
    p_vkGetPhysicalDeviceSurfacePresentModesKHR :=
      .macdrv .macdrv_vkGetPhysicalDeviceSurfacePresentModesKHR
    p_vkGetPhysicalDeviceSurfaceSupportKHR :=
      .macdrv .macdrv_vkGetPhysicalDeviceSurfaceSupportKHR
    p_vkGetPhysicalDeviceWin32PresentationSupportKHR :=
      .macdrv .macdrv_vkGetPhysicalDeviceWin32PresentationSupportKHR
    p_vkGetSwapchainImagesKHR := .macdrv .macdrv_vkGetSwapchainImagesKHR
    p_vkQueuePresentKHR := .macdrv .macdrv_vkQueuePresentKHR }

/-- The character `name[i]` of a C string: the terminating NUL at and (as far
as the code ever looks) after its end. -/
def char_at (name : String) (i : Nat) : Char :=
  name.data.getD i (Char.ofNat 0)

/-- The C string `name + n` for `n` not beyond the terminator. -/
def cstr_advance (name : String) (n : Nat) : String :=
  String.mk (name.data.drop n)

/-- The function `get_vulkan_driver_device_proc_addr` (vulkan.c:506-528). -/
def get_vulkan_driver_device_proc_addr (funcs : vulkan_funcs)
    (name : Option String) : FnPtr :=
  match name with
  | none => .null
  | some name0 =>
    if char_at name0 0 ≠ 'v' ∨ char_at name0 1 ≠ 'k' then .null
    else
      let name := cstr_advance name0 2
      if name = "AcquireNextImageKHR" then funcs.p_vkAcquireNextImageKHR
      else if name = "CreateSwapchainKHR" then funcs.p_vkCreateSwapchainKHR
      else if name = "DestroySwapchainKHR" then funcs.p_vkDestroySwapchainKHR
      else if name = "GetDeviceProcAddr" then funcs.p_vkGetDeviceProcAddr
      else if name = "GetSwapchainImagesKHR" then funcs.p_vkGetSwapchainImagesKHR
      else if name = "QueuePresentKHR" then funcs.p_vkQueuePresentKHR
      else .null

/-- The function `macdrv_get_vk_device_proc_addr` (vulkan.c:530-533). -/
def macdrv_get_vk_device_proc_addr (name : Option String) : FnPtr :=
  get_vulkan_driver_device_proc_addr macdrv_vulkan_funcs name

/-- The function `get_vulkan_driver_instance_proc_addr` (vulkan.c:535-573);
`inst` is the `VkInstance` handle. -/
def get_vulkan_driver_instance_proc_addr (funcs : vulkan_funcs) (inst : Nat)
    (name : Option String) : FnPtr :=
  match name with
  | none => .null
  | some name0 =>
    if char_at name0 0 ≠ 'v' ∨ char_at name0 1 ≠ 'k' then .null
    else
      let name := cstr_advance name0 2
      if name = "CreateInstance" then funcs.p_vkCreateInstance
      else if name = "EnumerateInstanceExtensionProperties" then
        funcs.p_vkEnumerateInstanceExtensionProperties
      else if inst = 0 then .null
      else if name = "CreateWin32SurfaceKHR" then funcs.p_vkCreateWin32SurfaceKHR
      else if name = "DestroyInstance" then funcs.p_vkDestroyInstance
      else if name = "DestroySurfaceKHR" then funcs.p_vkDestroySurfaceKHR
      else if name = "GetInstanceProcAddr" then funcs.p_vkGetInstanceProcAddr
      else if name = "GetPhysicalDeviceSurfaceCapabilitiesKHR" then
        funcs.p_vkGetPhysicalDeviceSurfaceCapabilitiesKHR
      else if name = "GetPhysicalDeviceSurfaceFormatsKHR" then
        funcs.p_vkGetPhysicalDeviceSurfaceFormatsKHR
      else if name = "GetPhysicalDeviceSurfacePresentModesKHR" then
        funcs.p_vkGetPhysicalDeviceSurfacePresentModesKHR
      else if name = "GetPhysicalDeviceSurfaceSupportKHR" then
        funcs.p_vkGetPhysicalDeviceSurfaceSupportKHR
      else if name = "GetPhysicalDeviceWin32PresentationSupportKHR" then
        funcs.p_vkGetPhysicalDeviceWin32PresentationSupportKHR
      else get_vulkan_driver_device_proc_addr funcs (some name0)

/-- The function `macdrv_get_vk_instance_proc_addr` (vulkan.c:575-578). -/
def macdrv_get_vk_instance_proc_addr (inst : Nat) (name : Option String) : FnPtr :=
  get_vulkan_driver_instance_proc_addr macdrv_vulkan_funcs inst name

/-- The function `get_vulkan_driver` (vulkan.c:580-592, the
`SONAME_LIBMOLTENVK` build). `driver_version` is the value of the macro
`WINE_VULKAN_DRIVER_VERSION`, defined in the absent wine/vulkan_driver.h.
The result is `some` of the static table for `&vulkan_funcs`, `none` for
`NULL`. -/
def get_vulkan_driver (driver_version : Nat) (ld : Loader) (version : Nat)
    (st : InitState) : Option vulkan_funcs × InitState :=
  if version ≠ driver_version then (none, st)
  else
    let r := wine_vk_init ld st
    if r.1 then (some macdrv_vulkan_funcs, r.2) else (none, r.2)

/-- The table entry a dispatch name denotes, in the words of the
specification: the member `p_<name>` of the table for each of the seventeen
entry-point names, paired with that name. -/
def dispatch_entries (funcs : vulkan_funcs) : List (String × FnPtr) :=
  [ ("vkAcquireNextImageKHR", funcs.p_vkAcquireNextImageKHR)
  , ("vkCreateInstance", funcs.p_vkCreateInstance)
  , ("vkCreateSwapchainKHR", funcs.p_vkCreateSwapchainKHR)
  , ("vkCreateWin32SurfaceKHR", funcs.p_vkCreateWin32SurfaceKHR)
  , ("vkDestroyInstance", funcs.p_vkDestroyInstance)
  , ("vkDestroySurfaceKHR", funcs.p_vkDestroySurfaceKHR)
  , ("vkDestroySwapchainKHR", funcs.p_vkDestroySwapchainKHR)
  , ("vkEnumerateInstanceExtensionProperties",
      funcs.p_vkEnumerateInstanceExtensionProperties)
  , ("vkGetDeviceProcAddr", funcs.p_vkGetDeviceProcAddr)
  , ("vkGetInstanceProcAddr", funcs.p_vkGetInstanceProcAddr)
  , ("vkGetPhysicalDeviceSurfaceCapabilitiesKHR",
      funcs.p_vkGetPhysicalDeviceSurfaceCapabilitiesKHR)
  , ("vkGetPhysicalDeviceSurfaceFormatsKHR",
      funcs.p_vkGetPhysicalDeviceSurfaceFormatsKHR)
  , ("vkGetPhysicalDeviceSurfacePresentModesKHR",
      funcs.p_vkGetPhysicalDeviceSurfacePresentModesKHR)
  , ("vkGetPhysicalDeviceSurfaceSupportKHR",
      funcs.p_vkGetPhysicalDeviceSurfaceSupportKHR)
  , ("vkGetPhysicalDeviceWin32PresentationSupportKHR",
      funcs.p_vkGetPhysicalDeviceWin32PresentationSupportKHR)
  , ("vkGetSwapchainImagesKHR", funcs.p_vkGetSwapchainImagesKHR)
  , ("vkQueuePresentKHR", funcs.p_vkQueuePresentKHR) ]

/-- The names of the six device-level entry points. -/
def device_level_names : List String :=
  [ "vkAcquireNextImageKHR", "vkCreateSwapchainKHR", "vkDestroySwapchainKHR"
  , "vkGetDeviceProcAddr", "vkGetSwapchainImagesKHR", "vkQueuePresentKHR" ]

/-- The table entry named `name`, `NULL` when the table has no such entry. -/
def table_entry (funcs : vulkan_funcs) (name : String) : FnPtr :=
  ((dispatch_entries funcs).lookup name).getD .null

/-! ## Result codes -/

/-- Modelled from the spec: the success result code. The enumerator is declared
in wine/vulkan.h, which is not among the source files; it has its Vulkan API
value here. -/
def VK_SUCCESS : Int := 0

/-- Modelled from the spec: the result kind OutOfHostMemory of section 7, with
its Vulkan API value. -/
def VK_ERROR_OUT_OF_HOST_MEMORY : Int := -1

/-- Modelled from the spec: the result kind LayerNotPresent of section 7, with
its Vulkan API value. -/
def VK_ERROR_LAYER_NOT_PRESENT : Int := -6

/-- Modelled from the spec: the result kind DriverIncompatible of section 7,
with its Vulkan API value. -/
def VK_ERROR_INCOMPATIBLE_DRIVER : Int := -9

/-! ## Collaborator calls -/

/-- The fields of `VkInstanceCreateInfo` (declared in wine/vulkan.h) that
vulkan.c reads and writes. An array of names is held by value: `none` is a
`NULL` array pointer. -/
structure VkInstanceCreateInfo where
  sType : Nat
  pNext : Nat
  flags : Nat
  pApplicationInfo : Nat
  enabledLayerCount : Nat
  ppEnabledLayerNames : Option (List String)
  enabledExtensionCount : Nat
  ppEnabledExtensionNames : Option (List String)
  deriving DecidableEq, Repr

/-- The fields of `VkExtensionProperties` (declared in wine/vulkan.h) that
vulkan.c reads and writes. -/
structure VkExtensionProperties where
  extensionName : String
  specVersion : Nat
  deriving DecidableEq, Repr

/-- The struct `VkMacOSSurfaceCreateInfoMVK` (vulkan.c:57-63). -/
structure VkMacOSSurfaceCreateInfoMVK where
  sType : Nat
  pNext : Nat
  flags : Nat
  pView : Nat
  deriving DecidableEq, Repr

/-- The macro `VK_STRUCTURE_TYPE_MACOS_SURFACE_CREATE_INFO_MVK` (vulkan.c:48). -/
def VK_STRUCTURE_TYPE_MACOS_SURFACE_CREATE_INFO_MVK : Nat := 1000123000

/-- The struct `wine_vk_surface` (vulkan.c:50-55). -/
structure wine_vk_surface where
  device : Nat
  view : Nat
  surface : Nat
  deriving DecidableEq, Repr

/-- The one field of `VkWin32SurfaceCreateInfoKHR` (declared in wine/vulkan.h)
that vulkan.c reads. -/
structure VkWin32SurfaceCreateInfoKHR where
  hwnd : Nat
  deriving DecidableEq, Repr

/-- The struct `VkSwapchainCreateInfoKHR` (declared in wine/vulkan.h): the
member `surface`, the only one vulkan.c touches, and the remaining members in
declaration order, held as plain words. -/
structure VkSwapchainCreateInfoKHR where
  surface : Nat
  others : List Nat
  deriving DecidableEq, Repr

/-- A call made by the shim to a collaborator, with its arguments: the heap,
the window registry, the Metal helpers of the Cocoa side and the entry points
of the host library (the `pvk...` pointers). An `allocator` is the
`VkAllocationCallbacks` pointer handed to the host. For the calls that
acquire something, `ret` is the pointer returned (`0` on failure); for the
host's surface creation, `res` is its result code and `surface` the value it
leaves in its output handle. `heap_free_array` is `heap_free` on an array of
names, held by value like the array. For the host's instance and swapchain
creation, `res` is the result code and the last argument the value stored
through the output pointer (`none` when the host stores nothing). For the
host's two proc-address entry points, `ret` is the pointer returned. -/
inductive Event where
  | heap_calloc (count : Nat) (ok : Bool)
  | heap_alloc_zero (ret : Nat)
  | heap_free (p : Nat)
  | get_win_data (hwnd : Nat) (ret : Nat)
  | release_win_data (data : Nat)
  | macdrv_create_metal_device (ret : Nat)
  | macdrv_release_metal_device (device : Nat)
  | macdrv_view_get_metal_view (cocoa_view device : Nat) (ret : Nat)
  | macdrv_view_remove_metal_view (view : Nat)
  | pvkCreateMacOSSurfaceMVK (inst : Nat) (info : VkMacOSSurfaceCreateInfoMVK)
      (allocator : Nat) (res : Int) (surface : Nat)
  | pvkDestroySurfaceKHR (inst surface allocator : Nat)
  | pvkEnumerateInstanceExtensionProperties (layer_name : Option String)
      (count : Nat) (properties : Option (List VkExtensionProperties))
  | heap_free_array (names : Option (List String))
  | pvkCreateInstance (info : VkInstanceCreateInfo) (allocator : Nat) (res : Int)
      (inst : Option Nat)
  | pvkCreateSwapchainKHR (device : Nat) (info : VkSwapchainCreateInfoKHR) (allocator : Nat)
      (res : Int) (swapchain : Option Nat)
  | pvkGetDeviceProcAddr (device : Nat) (name : Option String) (ret : FnPtr)
  | pvkGetInstanceProcAddr (inst : Nat) (name : Option String) (ret : FnPtr)
  deriving DecidableEq, Repr

/-! ## Extension translator -/

/-- The loop of `wine_vk_instance_convert_create_info` (vulkan.c:153-166) at
index `i` with `k` iterations left; `enabled` holds the entries of
`enabled_extensions` written so far. Reading past the source array is a
fault. -/
def convert_extension_names (src_names : List String) :
    Nat → Nat → List String → Option (List String)
  | _, 0, enabled => some enabled
  | i, k + 1, enabled =>
    match src_names.get? i with
    | none => none
    | some s =>
      convert_extension_names src_names (i + 1) k
        (enabled ++ [if s = "VK_KHR_win32_surface" then "VK_MVK_macos_surface" else s])

/-- What `wine_vk_instance_convert_create_info` hands back: the returned
`VkResult`, the descriptor `*dst`, the collaborator calls made, and the
contents of the caller's descriptor `*src`, its name arrays included, as the
call leaves them. -/
structure ConvertResult where
  res : Int
  dst : VkInstanceCreateInfo
  trace : List Event
  src : VkInstanceCreateInfo
  deriving DecidableEq, Repr

/-- The function `wine_vk_instance_convert_create_info` (vulkan.c:129-172).
`calloc_ok` tells whether `heap_calloc`, if called, returns a block. The
object behind `dst` is the caller's own, apart from the one behind `src`
(the local `create_info_host` of `macdrv_vkCreateInstance`); every store of
the function goes to it or to the block just allocated, none through `src` or
into the arrays `src` points to. -/
def wine_vk_instance_convert_create_info (calloc_ok : Bool)
    (src : VkInstanceCreateInfo) : Option ConvertResult :=
  let dst : VkInstanceCreateInfo :=
    { sType := src.sType
      flags := src.flags
      pApplicationInfo := src.pApplicationInfo
      pNext := src.pNext
      enabledLayerCount := 0
      ppEnabledLayerNames := none
      enabledExtensionCount := 0
      ppEnabledExtensionNames := none }
  if src.enabledExtensionCount > 0 then
    let trace := [Event.heap_calloc src.enabledExtensionCount calloc_ok]
    if ¬ calloc_ok then
      some { res := VK_ERROR_OUT_OF_HOST_MEMORY, dst := dst, trace := trace, src := src }
    else
      match src.ppEnabledExtensionNames with
      | none => none
      | some src_names =>
        match convert_extension_names src_names 0 src.enabledExtensionCount [] with
        | none => none
        | some enabled_extensions =>
          some { res := VK_SUCCESS
                 dst := { dst with ppEnabledExtensionNames := some enabled_extensions
                                   enabledExtensionCount := src.enabledExtensionCount }
                 trace := trace
                 src := src }
  else
    some { res := VK_SUCCESS, dst := dst, trace := [], src := src }

/-- What `macdrv_vkCreateInstance` hands back: the returned `VkResult`, the
value stored through the output pointer `instance` (`none` when nothing was
stored) and the collaborator calls made. -/
structure CreateInstanceResult where
  res : Int
  instance_out : Option Nat
  trace : List Event
  deriving DecidableEq, Repr

/-- The function `macdrv_vkCreateInstance` (vulkan.c:201-226). `calloc_ok`
tells whether `heap_calloc`, if called, returns a block; `host info` is what
the entry point behind `pvkCreateInstance` answers on the descriptor `info`:
its result code and the value it stores through `instance`, if any. -/
def macdrv_vkCreateInstance (calloc_ok : Bool)
    (host : VkInstanceCreateInfo → Int × Option Nat)
    (create_info : VkInstanceCreateInfo) (allocator : Nat) : Option CreateInstanceResult :=
  let _ := allocator
  match wine_vk_instance_convert_create_info calloc_ok create_info with
  | none => none
  | some c =>
    if c.res ≠ VK_SUCCESS then
      some { res := c.res, instance_out := none, trace := c.trace }
    else
      let create_info_host := c.dst
      let r := host create_info_host
      some { res := r.1
             instance_out := r.2
             trace := c.trace ++
               [ Event.pvkCreateInstance create_info_host 0 r.1 r.2
               , Event.heap_free_array create_info_host.ppEnabledExtensionNames ] }

/-- The effect of `snprintf(buf, size, s)` on the string held by `buf`, for
a format `s` without conversions: at most `size - 1` characters are stored. -/
def snprintf (size : Nat) (buf s : String) : String :=
  if size = 0 then buf else String.mk (s.data.take (size - 1))

/-- The loop of `macdrv_vkEnumerateInstanceExtensionProperties`
(vulkan.c:380-390) at index `i` with `k` iterations left. `name_size` is
`sizeof(properties[i].extensionName)`, fixed by the absent wine/vulkan.h.
Reading past the array is a fault. -/
def fixup_extension_properties (name_size : Nat) :
    Nat → Nat → List VkExtensionProperties → Option (List VkExtensionProperties)
  | _, 0, properties => some properties
  | i, k + 1, properties =>
    match properties.get? i with
    | none => none
    | some p =>
      if p.extensionName = "VK_MVK_macos_surface" then
        fixup_extension_properties name_size (i + 1) k
          (properties.set i
            { extensionName := snprintf name_size p.extensionName "VK_KHR_win32_surface"
              specVersion := 6 })
      else fixup_extension_properties name_size (i + 1) k properties

/-- What one call of the host's `vkEnumerateInstanceExtensionProperties`
leaves behind: its result, the value of `*count` and the contents of the
caller's array (looked at only when the caller passed one). -/
structure HostEnumeration where
  res : Int
  count : Nat
  properties : List VkExtensionProperties
  deriving DecidableEq, Repr

/-- What `macdrv_vkEnumerateInstanceExtensionProperties` hands back: the
returned `VkResult`, the value of `*count` and the contents of the caller's
array after the call, and the collaborator calls made. -/
structure EnumerateResult where
  res : Int
  count : Nat
  properties : Option (List VkExtensionProperties)
  trace : List Event
  deriving DecidableEq, Repr

/-- The function `macdrv_vkEnumerateInstanceExtensionProperties`
(vulkan.c:356-394). `host` is the entry point behind
`pvkEnumerateInstanceExtensionProperties`; `count` and `properties` are the
value of `*count` and the contents of the caller's array (`none` for a `NULL`
array) before the call. -/
def macdrv_vkEnumerateInstanceExtensionProperties (name_size : Nat)
    (host : Option String → Nat → Option (List VkExtensionProperties) → HostEnumeration)
    (layer_name : Option String) (count : Nat)
    (properties : Option (List VkExtensionProperties)) : Option EnumerateResult :=
  if layer_name.isSome then
    some { res := VK_ERROR_LAYER_NOT_PRESENT, count := count, properties := properties,
           trace := [] }
  else
    let h := host layer_name count properties
    let trace := [Event.pvkEnumerateInstanceExtensionProperties layer_name count properties]
    match properties with
    | none => some { res := h.res, count := h.count, properties := none, trace := trace }
    | some _ =>
      if h.res < 0 then
        some { res := h.res, count := h.count, properties := some h.properties,
               trace := trace }
      else
        match fixup_extension_properties name_size 0 h.count h.properties with
        | none => none
        | some fixed =>
          some { res := h.res, count := h.count, properties := some fixed, trace := trace }

/-! ## Surface lifecycle -/

/-- The part of the process state the surface functions touch: the live
`struct wine_vk_surface` objects of the heap by address, and the collaborator
calls made so far, oldest first. -/
structure World where
  heap : Nat → Option wine_vk_surface
  trace : List Event

/-- Append a collaborator call to the trace. -/
def World.emit (w : World) (e : Event) : World :=
  { w with trace := w.trace ++ [e] }

/-- Store an object at an address. -/
def World.store (w : World) (p : Nat) (obj : wine_vk_surface) : World :=
  { w with heap := fun q => if q = p then some obj else w.heap q }

/-- The call `heap_free(p)`: the block is no longer live. -/
def World.heap_free (w : World) (p : Nat) : World :=
  { heap := fun q => if q = p then none else w.heap q
    trace := w.trace ++ [Event.heap_free p] }

/-- The function `surface_from_handle` (vulkan.c:85-88). The cast through
`uintptr_t` keeps the value: `VkSurfaceKHR` is a 64-bit integer and so is a
pointer wherever the MoltenVK build exists. -/
def surface_from_handle (handle : Nat) : Nat := handle

/-- The function `wine_vk_surface_destroy` (vulkan.c:174-189). -/
def wine_vk_surface_destroy (inst : Nat) (surface : Nat) (w : World) : Option World :=
  if surface = 0 then some w
  else
    match w.heap surface with
    | none => none
    | some obj =>
      let w1 := w.emit (Event.pvkDestroySurfaceKHR inst obj.surface 0)
      let w2 := if obj.view ≠ 0 then w1.emit (Event.macdrv_view_remove_metal_view obj.view)
                else w1
      let w3 := if obj.device ≠ 0 then
                  w2.emit (Event.macdrv_release_metal_device obj.device)
                else w2
      some (w3.heap_free surface)

/-- The function `macdrv_vkDestroySurfaceKHR` (vulkan.c:332-343). -/
def macdrv_vkDestroySurfaceKHR (inst : Nat) (surface : Nat) (allocator : Nat)
    (w : World) : Option World :=
  let mac_surface := surface_from_handle surface
  let _ := allocator
  wine_vk_surface_destroy inst mac_surface w

/-- What `macdrv_vkCreateSwapchainKHR` hands back: the returned `VkResult`, the
value stored through the output pointer `swapchain` (`none` when nothing was
stored), the state after the call, and the contents of the caller's
descriptor `*create_info` as the call leaves them. -/
structure CreateSwapchainResult where
  res : Int
  swapchain : Option Nat
  world : World
  create_info : VkSwapchainCreateInfoKHR

/-- The function `macdrv_vkCreateSwapchainKHR` (vulkan.c:228-243).
`host device info` is what the entry point behind `pvkCreateSwapchainKHR`
answers: its result code and the value it stores through `swapchain`, if
any. The one store to a descriptor goes to the local `create_info_host`, the
object whose address the host is given; the caller's is only read. -/
def macdrv_vkCreateSwapchainKHR
    (host : Nat → VkSwapchainCreateInfoKHR → Int × Option Nat)
    (device : Nat) (create_info : VkSwapchainCreateInfoKHR) (allocator : Nat) (w : World) :
    Option CreateSwapchainResult :=
  let _ := allocator
  let create_info_host0 := create_info
  match w.heap (surface_from_handle create_info.surface) with
  | none => none
  | some obj =>
    let create_info_host := { create_info_host0 with surface := obj.surface }
    let r := host device create_info_host
    some { res := r.1
           swapchain := r.2
           world := w.emit (Event.pvkCreateSwapchainKHR device create_info_host 0 r.1 r.2)
           create_info := create_info }

/-- What the collaborators answer during one call of
`macdrv_vkCreateWin32SurfaceKHR`: `GetAncestor hwnd` is
`GetAncestor(hwnd, GA_PARENT)`; `client_cocoa_view data` is
`data->client_cocoa_view`; `heap_alloc_zero`, `macdrv_create_metal_device`
and `macdrv_view_get_metal_view` are the pointers returned (`0` on failure);
`pvkCreateMacOSSurfaceMVK inst info` is the host's result code and the value
the host leaves in its output handle. -/
structure SurfaceEnv where
  GetAncestor : Nat → Nat
  GetDesktopWindow : Nat
  get_win_data : Nat → Nat
  client_cocoa_view : Nat → Nat
  heap_alloc_zero : Nat
  macdrv_create_metal_device : Nat
  macdrv_view_get_metal_view : Nat → Nat → Nat
  pvkCreateMacOSSurfaceMVK : Nat → VkMacOSSurfaceCreateInfoMVK → Int × Nat

/-- What `macdrv_vkCreateWin32SurfaceKHR` hands back: the returned `VkResult`,
the value stored through the output pointer `surface` (`none` when nothing
was stored) and the state after the call. -/
structure CreateSurfaceResult where
  res : Int
  surface : Option Nat
  world : World

/-- The exit through the label `err` of `macdrv_vkCreateWin32SurfaceKHR`
(vulkan.c:316-319). -/
def create_surface_err (inst mac_surface data : Nat) (res : Int) (w : World) :
    Option CreateSurfaceResult :=
  match wine_vk_surface_destroy inst mac_surface w with
  | none => none
  | some w1 =>
    some { res := res, surface := none, world := w1.emit (Event.release_win_data data) }

/-- The function `macdrv_vkCreateWin32SurfaceKHR` (vulkan.c:245-320). The two
window queries of the entry test are answered by the environment and are not
entered in the trace. -/
def macdrv_vkCreateWin32SurfaceKHR (env : SurfaceEnv) (inst : Nat)
    (create_info : VkWin32SurfaceCreateInfoKHR) (allocator : Nat) (w : World) :
    Option CreateSurfaceResult :=
  let _ := allocator
  if env.GetAncestor create_info.hwnd ≠ env.GetDesktopWindow then
    some { res := VK_ERROR_INCOMPATIBLE_DRIVER, surface := none, world := w }
  else
    let data := env.get_win_data create_info.hwnd
    let w1 := w.emit (Event.get_win_data create_info.hwnd data)
    if data = 0 then
      some { res := VK_ERROR_INCOMPATIBLE_DRIVER, surface := none, world := w1 }
    else
      let mac_surface := env.heap_alloc_zero
      let w2 := w1.emit (Event.heap_alloc_zero mac_surface)
      if mac_surface = 0 then
        some { res := VK_ERROR_OUT_OF_HOST_MEMORY, surface := none,
               world := w2.emit (Event.release_win_data data) }
      else
        let obj0 : wine_vk_surface := { device := 0, view := 0, surface := 0 }
        let w3 := w2.store mac_surface obj0
        let obj1 := { obj0 with device := env.macdrv_create_metal_device }
        let w4 := (w3.emit (Event.macdrv_create_metal_device obj1.device)).store mac_surface obj1
        if obj1.device = 0 then
          create_surface_err inst mac_surface data VK_ERROR_OUT_OF_HOST_MEMORY w4
        else
          let cocoa_view := env.client_cocoa_view data
          let obj2 :=
            { obj1 with view := env.macdrv_view_get_metal_view cocoa_view obj1.device }
          let w5 :=
            (w4.emit (Event.macdrv_view_get_metal_view cocoa_view obj1.device obj2.view)).store
              mac_surface obj2
          if obj2.view = 0 then
            create_surface_err inst mac_surface data VK_ERROR_OUT_OF_HOST_MEMORY w5
          else
            let create_info_host : VkMacOSSurfaceCreateInfoMVK :=
              { sType := VK_STRUCTURE_TYPE_MACOS_SURFACE_CREATE_INFO_MVK
                pNext := 0
                flags := 0
                pView := obj2.view }
            let r := env.pvkCreateMacOSSurfaceMVK inst create_info_host
            let obj3 := { obj2 with surface := r.2 }
            let w6 :=
              (w5.emit (Event.pvkCreateMacOSSurfaceMVK inst create_info_host 0 r.1 r.2)).store
                mac_surface obj3
            if r.1 ≠ VK_SUCCESS then
              create_surface_err inst mac_surface data r.1 w6
            else
              some { res := VK_SUCCESS, surface := some mac_surface,
                     world := w6.emit (Event.release_win_data data) }

/-- The number of times a call occurs in a trace. -/
def calls (e : Event) (trace : List Event) : Nat := trace.count e

/-- The window-data record the registry answers with at step 1. -/
def SurfaceEnv.step1_data (env : SurfaceEnv) (create_info : VkWin32SurfaceCreateInfoKHR) :
    Nat :=
  env.get_win_data create_info.hwnd

/-- The view the Metal helper answers with at step 4, asked with the Cocoa
view of the window-data record and the device of step 3. -/
def SurfaceEnv.step4_view (env : SurfaceEnv) (create_info : VkWin32SurfaceCreateInfoKHR) :
    Nat :=
  env.macdrv_view_get_metal_view (env.client_cocoa_view (env.get_win_data create_info.hwnd))
    env.macdrv_create_metal_device

/-- The creation descriptor handed to the host at step 5. -/
def SurfaceEnv.step5_info (env : SurfaceEnv) (create_info : VkWin32SurfaceCreateInfoKHR) :
    VkMacOSSurfaceCreateInfoMVK :=
  { sType := VK_STRUCTURE_TYPE_MACOS_SURFACE_CREATE_INFO_MVK
    pNext := 0
    flags := 0
    pView := env.step4_view create_info }

/-- The answer of the host's native-surface creation at step 5. -/
def SurfaceEnv.step5_host (env : SurfaceEnv) (inst : Nat)
    (create_info : VkWin32SurfaceCreateInfoKHR) : Int × Nat :=
  env.pvkCreateMacOSSurfaceMVK inst (env.step5_info create_info)

/-- Window-data records acquired in a trace: the successful registry lookups. -/
def acquired_win_data (trace : List Event) : Nat :=
  trace.countP (fun e => match e with
    | Event.get_win_data _ ret => decide (ret ≠ 0)
    | _ => false)

/-- Window-data records released in a trace. -/
def released_win_data (trace : List Event) : Nat :=
  trace.countP (fun e => match e with
    | Event.release_win_data _ => true
    | _ => false)

/-- Composite objects allocated in a trace: the successful allocations. -/
def allocated_objects (trace : List Event) : Nat :=
  trace.countP (fun e => match e with
    | Event.heap_alloc_zero ret => decide (ret ≠ 0)
    | _ => false)

/-- Blocks freed in a trace. -/
def freed_objects (trace : List Event) : Nat :=
  trace.countP (fun e => match e with
    | Event.heap_free _ => true
    | _ => false)

/-- Devices acquired in a trace: the successful device creations. -/
def acquired_devices (trace : List Event) : Nat :=
  trace.countP (fun e => match e with
    | Event.macdrv_create_metal_device ret => decide (ret ≠ 0)
    | _ => false)

/-- Devices released in a trace. -/
def released_devices (trace : List Event) : Nat :=
  trace.countP (fun e => match e with
    | Event.macdrv_release_metal_device _ => true
    | _ => false)

/-- Views acquired in a trace: the successful view lookups. -/
def acquired_views (trace : List Event) : Nat :=
  trace.countP (fun e => match e with
    | Event.macdrv_view_get_metal_view _ _ ret => decide (ret ≠ 0)
    | _ => false)

/-- Views removed in a trace. -/
def released_views (trace : List Event) : Nat :=
  trace.countP (fun e => match e with
    | Event.macdrv_view_remove_metal_view _ => true
    | _ => false)

/-- Calls of the host's destroy-surface entry point in a trace. -/
def destroyed_surfaces (trace : List Event) : Nat :=
  trace.countP (fun e => match e with
    | Event.pvkDestroySurfaceKHR _ _ _ => true
    | _ => false)

/-- What the two proc-address wrappers hand back: the returned pointer and the
collaborator calls made. -/
structure ProcAddrResult where
  proc_addr : FnPtr
  trace : List Event
  deriving DecidableEq, Repr

/-- The function `macdrv_vkGetDeviceProcAddr` (vulkan.c:396-406). `host` is
the entry point behind `pvkGetDeviceProcAddr`. -/
def macdrv_vkGetDeviceProcAddr (host : Nat → Option String → FnPtr) (device : Nat)
    (name : Option String) : ProcAddrResult :=
  let proc_addr := macdrv_get_vk_device_proc_addr name
  if proc_addr ≠ FnPtr.null then { proc_addr := proc_addr, trace := [] }
  else
    let ret := host device name
    { proc_addr := ret, trace := [Event.pvkGetDeviceProcAddr device name ret] }

/-- The function `macdrv_vkGetInstanceProcAddr` (vulkan.c:408-418). `host` is
the entry point behind `pvkGetInstanceProcAddr`. -/
def macdrv_vkGetInstanceProcAddr (host : Nat → Option String → FnPtr) (inst : Nat)
    (name : Option String) : ProcAddrResult :=
  let proc_addr := macdrv_get_vk_instance_proc_addr inst name
  if proc_addr ≠ FnPtr.null then { proc_addr := proc_addr, trace := [] }
  else
    let ret := host inst name
    { proc_addr := ret, trace := [Event.pvkGetInstanceProcAddr inst name ret] }

/-- Calls of entry points of the host library (the `pvk...` pointers) in a
trace. -/
def host_calls (trace : List Event) : Nat :=
  trace.countP (fun e => match e with
    | Event.pvkCreateMacOSSurfaceMVK _ _ _ _ _ => true
    | Event.pvkDestroySurfaceKHR _ _ _ => true
    | Event.pvkEnumerateInstanceExtensionProperties _ _ _ => true
    | Event.pvkCreateInstance _ _ _ _ => true
    | Event.pvkCreateSwapchainKHR _ _ _ _ _ => true
    | Event.pvkGetDeviceProcAddr _ _ _ => true
    | Event.pvkGetInstanceProcAddr _ _ _ => true
    | _ => false)

/-- Calls of the host's native-surface creation entry point in a trace. -/
def native_surface_creations (trace : List Event) : Nat :=
  trace.countP (fun e => match e with
    | Event.pvkCreateMacOSSurfaceMVK _ _ _ _ _ => true
    | _ => false)

/-- Whether the conversion can read every name the descriptor declares: the
name array is there and holds at least `enabledExtensionCount` names, or no
extension is declared. -/
def extension_names_readable (info : VkInstanceCreateInfo) : Bool :=
  match info.ppEnabledExtensionNames with
  | none => decide (info.enabledExtensionCount = 0)
  | some names => decide (info.enabledExtensionCount ≤ names.length)

/-- The extension names a descriptor presents to whoever reads it: the first
`enabledExtensionCount` entries of its name array, none for a null array. -/
def enabled_extensions (info : VkInstanceCreateInfo) : List String :=
  match info.ppEnabledExtensionNames with
  | none => []
  | some names => names.take info.enabledExtensionCount

/-- The two names the instance-scoped lookup resolves with or without an
instance. -/
def instance_independent_names : List String :=
  [ "vkCreateInstance", "vkEnumerateInstanceExtensionProperties" ]

/-- The nine names the instance-scoped lookup resolves only with an instance. -/
def instance_bound_names : List String :=
  [ "vkCreateWin32SurfaceKHR", "vkDestroyInstance", "vkDestroySurfaceKHR"
  , "vkGetInstanceProcAddr", "vkGetPhysicalDeviceSurfaceCapabilitiesKHR"
  , "vkGetPhysicalDeviceSurfaceFormatsKHR", "vkGetPhysicalDeviceSurfacePresentModesKHR"
  , "vkGetPhysicalDeviceSurfaceSupportKHR"
  , "vkGetPhysicalDeviceWin32PresentationSupportKHR" ]

/-- The eleven instance-level names: those the instance-scoped lookup resolves
itself, before it falls through to the device-scoped lookup. -/
def instance_level_names : List String :=
  instance_independent_names ++ instance_bound_names

/-- The seventeen names of the dispatch table, as the resolvers group them. -/
def dispatch_names : List String :=
  instance_independent_names ++ instance_bound_names ++ device_level_names

/-- A host that reports the single extension `VK_MVK_macos_surface` at
revision 3. -/
def host_enumerates_macos_surface (_ : Option String) (_ : Nat)
    (_ : Option (List VkExtensionProperties)) : HostEnumeration :=
  { res := 0, count := 1
    properties := [{ extensionName := "VK_MVK_macos_surface", specVersion := 3 }] }

/-- Collaborator answers for a top-level window (handle 7, desktop 1) whose
window-data record is 3 with Cocoa view 4: the object is allocated at 8, the
device is 5, the view 6, and the host creates native surface 9 with
`host_res`. -/
def sample_env (host_res : Int) : SurfaceEnv :=
  { GetAncestor := fun _ => 1
    GetDesktopWindow := 1
    get_win_data := fun _ => 3
    client_cocoa_view := fun _ => 4
    heap_alloc_zero := 8
    macdrv_create_metal_device := 5
    macdrv_view_get_metal_view := fun _ _ => 6
    pvkCreateMacOSSurfaceMVK := fun _ _ => (host_res, 9) }

/-- A world with no live object and an empty trace. -/
def World.empty : World :=
  { heap := fun _ => none, trace := [] }

/-- Collaborator answers for a child window: its parent (2) is not the
desktop (1). Every later collaborator would succeed. -/
def child_window_env : SurfaceEnv :=
  { GetAncestor := fun _ => 2
    GetDesktopWindow := 1
    get_win_data := fun _ => 3
    client_cocoa_view := fun _ => 4
    heap_alloc_zero := 8
    macdrv_create_metal_device := 5
    macdrv_view_get_metal_view := fun _ _ => 6
    pvkCreateMacOSSurfaceMVK := fun _ _ => (0, 9) }

/-- A world holding one complete composite object at address 8: device 5,
view 6, native surface 9. -/
def world_with_surface : World :=
  { heap := fun q => if q = 8 then some { device := 5, view := 6, surface := 9 } else none
    trace := [] }

/-- A host whose swapchain creation succeeds and stores swapchain 11. -/
def host_creates_swapchain (_ : Nat) (_ : VkSwapchainCreateInfoKHR) : Int × Option Nat :=
  (0, some 11)

/-- A host whose instance creation succeeds and stores instance 12. -/
def host_creates_instance (_ : VkInstanceCreateInfo) : Int × Option Nat :=
  (0, some 12)

/-- A host whose enumeration fails with code -1 after scribbling on the
caller's array. -/
def host_enumeration_fails (_ : Option String) (_ : Nat)
    (_ : Option (List VkExtensionProperties)) : HostEnumeration :=
  { res := -1, count := 1
    properties := [{ extensionName := "VK_MVK_macos_surface", specVersion := 3 }] }

/-- Collaborator answers for a top-level window on which the allocation (at 8)
succeeds and the device, when `device` is `0`, or else the view cannot be
had. -/
def failing_env (device : Nat) : SurfaceEnv :=
  { GetAncestor := fun _ => 1
    GetDesktopWindow := 1
    get_win_data := fun _ => 3
    client_cocoa_view := fun _ => 4
    heap_alloc_zero := 8
    macdrv_create_metal_device := device
    macdrv_view_get_metal_view := fun _ _ => 0
    pvkCreateMacOSSurfaceMVK := fun _ _ => (0, 9) }

/-- A host proc-address entry point that knows one name of its own and
answers with a host address for it, whatever the handle. -/
def host_proc_addr (_ : Nat) (name : Option String) : FnPtr :=
  if name = some "vkCreateDevice" then FnPtr.host 100 else FnPtr.null

/-- A host that reports three extensions, the platform-native surface
extension among them. -/
def host_enumerates_three (_ : Option String) (_ : Nat)
    (_ : Option (List VkExtensionProperties)) : HostEnumeration :=
  { res := 0, count := 3
    properties :=
      [ { extensionName := "VK_KHR_surface", specVersion := 25 }
      , { extensionName := "VK_MVK_macos_surface", specVersion := 3 }
      , { extensionName := "VK_EXT_debug_utils", specVersion := 1 } ] }

/-- A loader on which the library loads and every required symbol resolves
but the last one, `vkQueuePresentKHR`. -/
def loader_missing_symbol : Loader :=
  { wine_dlopen := 1
    wine_dlsym := fun _ f => if f = "vkQueuePresentKHR" then 0 else 1 }

/-! # Theorems -/

/-! ## Library binder -/

/-- When the library cannot be loaded, the first call of `wine_vk_init`
fails and so does every later call, whatever the loader then answers. -/
theorem wine_vk_init_open_failure_cached (ld ld1 : Loader) (h : ld.wine_dlopen = 0) :
    (wine_vk_init ld InitState.initial).1 = false
      ∧ (wine_vk_init ld1 (wine_vk_init ld InitState.initial).2).1 = false := by
  simp [wine_vk_init, InitState.initial, h]

/-- C1 (the code departs from the claim): on a loader where the library
loads but `vkQueuePresentKHR` does not resolve, the first call of
`wine_vk_init` reports failure and the second reports success, with the host
pointer of that symbol still `NULL`; accordingly `get_vulkan_driver` with the
matching version first returns `NULL` and then the dispatch table. -/
theorem C1_wine_vk_init_symbol_failure_not_cached :
    (wine_vk_init_calls [loader_missing_symbol, loader_missing_symbol] InitState.initial).1
        = [false, true]
      ∧ "vkQueuePresentKHR" ∈ required_symbols
      ∧ (wine_vk_init_calls [loader_missing_symbol, loader_missing_symbol]
          InitState.initial).2.pfn "vkQueuePresentKHR" = 0
      ∧ ∀ v : Nat,
          (get_vulkan_driver v loader_missing_symbol v InitState.initial).1 = none
          ∧ (get_vulkan_driver v loader_missing_symbol v
              (get_vulkan_driver v loader_missing_symbol v InitState.initial).2).1
              = some macdrv_vulkan_funcs := by
  refine ⟨by decide, by decide, by decide, ?_⟩
  intro v
  have key : ∀ st, get_vulkan_driver v loader_missing_symbol v st =
      if (wine_vk_init loader_missing_symbol st).1 then
        (some macdrv_vulkan_funcs, (wine_vk_init loader_missing_symbol st).2)
      else (none, (wine_vk_init loader_missing_symbol st).2) := by
    intro st
    unfold get_vulkan_driver
    rw [if_neg (by simp)]
  have h1 : (wine_vk_init loader_missing_symbol InitState.initial).1 = false := by decide
  have h2 : (wine_vk_init loader_missing_symbol
      (wine_vk_init loader_missing_symbol InitState.initial).2).1 = true := by decide
  constructor
  · rw [key, h1]; rfl
  · rw [key InitState.initial, h1]
    simp only [Bool.false_eq_true, if_false]
    rw [key, h2]; rfl

/-! ## Extension translator -/

/-- The loop of the conversion, run from index `i` for `k` iterations inside
the source array, appends the translation of entries `i` to `i + k - 1`. -/
theorem convert_extension_names_eq (names : List String) (k : Nat) :
    ∀ (i : Nat) (enabled : List String), i + k ≤ names.length →
      convert_extension_names names i k enabled =
        some (enabled ++ ((names.drop i).take k).map
          (fun s => if s = "VK_KHR_win32_surface" then "VK_MVK_macos_surface" else s)) := by
  induction k with
  | zero => intro i enabled _; simp [convert_extension_names]
  | succ k ih =>
    intro i enabled h
    have hi : i < names.length := by omega
    rw [convert_extension_names, List.get?_eq_get hi]
    simp only
    rw [ih (i + 1) _ (by omega)]
    congr 1
    rw [List.append_assoc]
    congr 1
    rw [List.drop_eq_getElem_cons hi, List.take_succ_cons]
    simp

/-- C2: for a descriptor that declares `n > 0` extensions and carries at least
`n` names, the conversion (its allocation succeeding) returns `VK_SUCCESS`
with a translated list of exactly `n` names whose entry `i` is
`VK_MVK_macos_surface` where the input's entry `i` is `VK_KHR_win32_surface`
and the input's entry `i` otherwise. -/
theorem C2_convert_create_info_translates_names (src : VkInstanceCreateInfo)
    (names : List String) (hn : 0 < src.enabledExtensionCount)
    (hsrc : src.ppEnabledExtensionNames = some names)
    (hlen : src.enabledExtensionCount ≤ names.length) :
    ∃ out r, wine_vk_instance_convert_create_info true src = some r
      ∧ r.res = VK_SUCCESS
      ∧ r.dst.enabledExtensionCount = src.enabledExtensionCount
      ∧ r.dst.ppEnabledExtensionNames = some out
      ∧ out.length = src.enabledExtensionCount
      ∧ ∀ i s, i < src.enabledExtensionCount → names.get? i = some s →
          out.get? i
            = some (if s = "VK_KHR_win32_surface" then "VK_MVK_macos_surface" else s) := by
  have hloop := convert_extension_names_eq names src.enabledExtensionCount 0 [] (by omega)
  rw [List.drop_zero, List.nil_append] at hloop
  refine ⟨(names.take src.enabledExtensionCount).map
    (fun s => if s = "VK_KHR_win32_surface" then "VK_MVK_macos_surface" else s),
    { res := VK_SUCCESS
      dst := { sType := src.sType, flags := src.flags,
               pApplicationInfo := src.pApplicationInfo, pNext := src.pNext,
               enabledLayerCount := 0, ppEnabledLayerNames := none,
               enabledExtensionCount := src.enabledExtensionCount,
               ppEnabledExtensionNames := some ((names.take src.enabledExtensionCount).map
                 (fun s => if s = "VK_KHR_win32_surface" then "VK_MVK_macos_surface"
                           else s)) }
      trace := [Event.heap_calloc src.enabledExtensionCount true]
      src := src }, ?_, rfl, rfl, rfl, ?_, ?_⟩
  · unfold wine_vk_instance_convert_create_info
    simp only [gt_iff_lt, hn, if_true, hsrc, not_true_eq_false, if_false, hloop]
  · rw [List.length_map, List.length_take]
    omega
  · intro i s hi hs
    rw [List.get?_eq_getElem?] at hs ⊢
    rw [List.getElem?_map, List.getElem?_take_of_lt hi, hs]
    rfl

/-- Witness for C2: the scenario of the specification. -/
theorem C2_convert_create_info_translates_names_witness :
    (∃ out r, wine_vk_instance_convert_create_info true
          { sType := 1, pNext := 0, flags := 0, pApplicationInfo := 0,
            enabledLayerCount := 0, ppEnabledLayerNames := none,
            enabledExtensionCount := 2,
            ppEnabledExtensionNames := some ["VK_KHR_win32_surface", "VK_EXT_debug_utils"] }
          = some r
        ∧ r.res = VK_SUCCESS
        ∧ r.dst.enabledExtensionCount = 2
        ∧ r.dst.ppEnabledExtensionNames = some out
        ∧ out.length = 2
        ∧ ∀ i s, i < 2 → ["VK_KHR_win32_surface", "VK_EXT_debug_utils"].get? i = some s →
            out.get? i
              = some (if s = "VK_KHR_win32_surface" then "VK_MVK_macos_surface" else s))
      ∧ (wine_vk_instance_convert_create_info true
          { sType := 1, pNext := 0, flags := 0, pApplicationInfo := 0,
            enabledLayerCount := 0, ppEnabledLayerNames := none,
            enabledExtensionCount := 2,
            ppEnabledExtensionNames := some ["VK_KHR_win32_surface", "VK_EXT_debug_utils"] }
          ).map (fun r => r.dst.ppEnabledExtensionNames)
          = some (some ["VK_MVK_macos_surface", "VK_EXT_debug_utils"]) :=
  ⟨C2_convert_create_info_translates_names
      { sType := 1, pNext := 0, flags := 0, pApplicationInfo := 0,
        enabledLayerCount := 0, ppEnabledLayerNames := none,
        enabledExtensionCount := 2,
        ppEnabledExtensionNames := some ["VK_KHR_win32_surface", "VK_EXT_debug_utils"] }
      ["VK_KHR_win32_surface", "VK_EXT_debug_utils"] (by decide) rfl (by decide),
    by decide⟩

/-- The name written by the fix-up fits its field. -/
theorem snprintf_win32_surface (name_size : Nat) (buf : String)
    (hsz : "VK_KHR_win32_surface".length < name_size) :
    snprintf name_size buf "VK_KHR_win32_surface" = "VK_KHR_win32_surface" := by
  have h20 : "VK_KHR_win32_surface".length = 20 := by decide
  rw [h20] at hsz
  unfold snprintf
  rw [if_neg (by omega)]
  apply String.ext
  show List.take (name_size - 1) "VK_KHR_win32_surface".data = "VK_KHR_win32_surface".data
  apply List.take_of_length_le
  have : "VK_KHR_win32_surface".data.length = 20 := by decide
  omega

/-- The fix-up loop, run from index `i` for `k` iterations inside the array,
rewrites the entries `i` to `i + k - 1` and leaves the others as they were. -/
theorem fixup_extension_properties_spec (name_size : Nat)
    (hsz : "VK_KHR_win32_surface".length < name_size) (k : Nat) :
    ∀ (i : Nat) (props : List VkExtensionProperties), i + k ≤ props.length →
      ∃ out, fixup_extension_properties name_size i k props = some out
        ∧ out.length = props.length
        ∧ ∀ j, out[j]? =
            if i ≤ j ∧ j < i + k then
              (props[j]?).map (fun p =>
                if p.extensionName = "VK_MVK_macos_surface" then
                  { extensionName := "VK_KHR_win32_surface", specVersion := 6 }
                else p)
            else props[j]? := by
  induction k with
  | zero =>
    intro i props _
    refine ⟨props, rfl, rfl, ?_⟩
    intro j
    rw [if_neg (by omega)]
  | succ k ih =>
    intro i props h
    have hi : i < props.length := by omega
    rw [fixup_extension_properties, List.get?_eq_get hi]
    simp only
    by_cases hp : (props.get ⟨i, hi⟩).extensionName = "VK_MVK_macos_surface"
    · rw [if_pos hp, snprintf_win32_surface name_size _ hsz]
      obtain ⟨out, hout, hlen, hget⟩ := ih (i + 1)
        (props.set i { extensionName := "VK_KHR_win32_surface", specVersion := 6 })
        (by rw [List.length_set]; omega)
      refine ⟨out, hout, by rw [hlen, List.length_set], ?_⟩
      intro j
      rw [hget j, List.getElem?_set]
      by_cases hij : i = j
      · subst hij
        rw [if_neg (by omega), if_pos rfl, if_pos hi, if_pos (by omega),
          List.getElem?_eq_getElem hi]
        simp only [Option.map_some']
        rw [if_pos]
        exact hp
      · rw [if_neg hij]
        by_cases hr : i + 1 ≤ j ∧ j < i + 1 + k
        · rw [if_pos hr, if_pos (by omega)]
        · rw [if_neg hr, if_neg (by omega)]
    · rw [if_neg hp]
      obtain ⟨out, hout, hlen, hget⟩ := ih (i + 1) props (by omega)
      refine ⟨out, hout, hlen, ?_⟩
      intro j
      rw [hget j]
      by_cases hij : i = j
      · subst hij
        rw [if_neg (by omega), if_pos (by omega), List.getElem?_eq_getElem hi]
        simp only [Option.map_some']
        rw [if_neg]
        exact hp
      · by_cases hr : i + 1 ≤ j ∧ j < i + 1 + k
        · rw [if_pos hr, if_pos (by omega)]
        · rw [if_neg hr, if_neg (by omega)]

/-- C3: on a call with a null layer name and an array, where the host answers
with a non-negative result `h.res`, a count `h.count` and array contents
`h.properties` (the count within the array, the name field wide enough for
the substituted name), the shim calls the host once with the caller's
arguments, returns the host's result and count, and entry `i < h.count` of
the returned array is `(VK_KHR_win32_surface, 6)` where the host's entry `i`
is named `VK_MVK_macos_surface` and the host's entry `i` otherwise. -/
theorem C3_enumerate_rewrites_surface_extension (name_size : Nat)
    (host : Option String → Nat → Option (List VkExtensionProperties) → HostEnumeration)
    (count : Nat) (buf : List VkExtensionProperties) (h : HostEnumeration)
    (hhost : host none count (some buf) = h)
    (hsz : "VK_KHR_win32_surface".length < name_size)
    (hres : 0 ≤ h.res) (hcount : h.count ≤ h.properties.length) :
    ∃ out r,
      macdrv_vkEnumerateInstanceExtensionProperties name_size host none count (some buf)
          = some r
        ∧ r.res = h.res ∧ r.count = h.count ∧ r.properties = some out
        ∧ r.trace = [Event.pvkEnumerateInstanceExtensionProperties none count (some buf)]
        ∧ out.length = h.properties.length
        ∧ ∀ i p, i < h.count → h.properties.get? i = some p →
            out.get? i = some
              (if p.extensionName = "VK_MVK_macos_surface" then
                 { extensionName := "VK_KHR_win32_surface", specVersion := 6 }
               else p) := by
  obtain ⟨out, hout, hlen, hget⟩ :=
    fixup_extension_properties_spec name_size hsz h.count 0 h.properties (by omega)
  refine ⟨out, { res := h.res, count := h.count, properties := some out,
                 trace := [Event.pvkEnumerateInstanceExtensionProperties none count
                   (some buf)] }, ?_, rfl, rfl, rfl, rfl, hlen, ?_⟩
  · unfold macdrv_vkEnumerateInstanceExtensionProperties
    simp only [Option.isSome_none, Bool.false_eq_true, if_false, hhost, not_lt.mpr hres, hout]
  · intro i p hi hp
    rw [List.get?_eq_getElem?] at hp ⊢
    rw [hget i, if_pos (by omega), hp]
    rfl

/-- Witness for C3: the scenario of the specification. -/
theorem C3_enumerate_rewrites_surface_extension_witness :
    (∃ out r,
      macdrv_vkEnumerateInstanceExtensionProperties 256 host_enumerates_macos_surface none 1
            (some [{ extensionName := "", specVersion := 0 }])
          = some r
        ∧ r.res = (host_enumerates_macos_surface none 1
            (some [{ extensionName := "", specVersion := 0 }])).res
        ∧ r.count = (host_enumerates_macos_surface none 1
            (some [{ extensionName := "", specVersion := 0 }])).count
        ∧ r.properties = some out
        ∧ r.trace = [Event.pvkEnumerateInstanceExtensionProperties none 1
            (some [{ extensionName := "", specVersion := 0 }])]
        ∧ out.length = (host_enumerates_macos_surface none 1
            (some [{ extensionName := "", specVersion := 0 }])).properties.length
        ∧ ∀ i p, i < (host_enumerates_macos_surface none 1
              (some [{ extensionName := "", specVersion := 0 }])).count →
            (host_enumerates_macos_surface none 1
              (some [{ extensionName := "", specVersion := 0 }])).properties.get? i = some p →
            out.get? i = some
              (if p.extensionName = "VK_MVK_macos_surface" then
                 { extensionName := "VK_KHR_win32_surface", specVersion := 6 }
               else p))
      ∧ macdrv_vkEnumerateInstanceExtensionProperties 256 host_enumerates_macos_surface none 1
            (some [{ extensionName := "", specVersion := 0 }])
          = some { res := 0, count := 1
                   properties := some [{ extensionName := "VK_KHR_win32_surface",
                                         specVersion := 6 }]
                   trace := [Event.pvkEnumerateInstanceExtensionProperties none 1
                     (some [{ extensionName := "", specVersion := 0 }])] } :=
  ⟨C3_enumerate_rewrites_surface_extension 256 host_enumerates_macos_surface 1
      [{ extensionName := "", specVersion := 0 }] _ rfl (by decide) (by decide) (by decide),
    by decide⟩

/-! ## Surface lifecycle -/

/-- Step 1 fails: the registry does not resolve the window. -/
theorem create_surface_no_win_data (env : SurfaceEnv) (inst allocator : Nat)
    (ci : VkWin32SurfaceCreateInfoKHR) (w : World)
    (htop : env.GetAncestor ci.hwnd = env.GetDesktopWindow)
    (hdata : env.step1_data ci = 0) :
    ∃ r, macdrv_vkCreateWin32SurfaceKHR env inst ci allocator w = some r
      ∧ r.res = VK_ERROR_INCOMPATIBLE_DRIVER ∧ r.surface = none
      ∧ r.world.trace = w.trace ++ [Event.get_win_data ci.hwnd 0]
      ∧ r.world.heap = w.heap := by
  unfold SurfaceEnv.step1_data at hdata
  unfold macdrv_vkCreateWin32SurfaceKHR
  simp only [htop, ne_eq, not_true_eq_false, if_false, hdata, if_true, World.emit]
  simp

/-- Step 2 fails: the composite object cannot be allocated. -/
theorem create_surface_alloc_fails (env : SurfaceEnv) (inst allocator : Nat)
    (ci : VkWin32SurfaceCreateInfoKHR) (w : World)
    (htop : env.GetAncestor ci.hwnd = env.GetDesktopWindow)
    (hdata : env.step1_data ci ≠ 0) (halloc : env.heap_alloc_zero = 0) :
    ∃ r, macdrv_vkCreateWin32SurfaceKHR env inst ci allocator w = some r
      ∧ r.res = VK_ERROR_OUT_OF_HOST_MEMORY ∧ r.surface = none
      ∧ r.world.trace = w.trace ++
          [Event.get_win_data ci.hwnd (env.step1_data ci), Event.heap_alloc_zero 0,
           Event.release_win_data (env.step1_data ci)]
      ∧ r.world.heap = w.heap := by
  unfold SurfaceEnv.step1_data at hdata ⊢
  unfold macdrv_vkCreateWin32SurfaceKHR
  simp only [htop, ne_eq, not_true_eq_false, if_false, hdata, halloc, if_true, World.emit]
  simp

/-- Step 3 fails: no device. -/
theorem create_surface_device_fails (env : SurfaceEnv) (inst allocator : Nat)
    (ci : VkWin32SurfaceCreateInfoKHR) (w : World)
    (htop : env.GetAncestor ci.hwnd = env.GetDesktopWindow)
    (hdata : env.step1_data ci ≠ 0) (halloc : env.heap_alloc_zero ≠ 0)
    (hdev : env.macdrv_create_metal_device = 0) :
    ∃ r, macdrv_vkCreateWin32SurfaceKHR env inst ci allocator w = some r
      ∧ r.res = VK_ERROR_OUT_OF_HOST_MEMORY ∧ r.surface = none
      ∧ r.world.trace = w.trace ++
          [Event.get_win_data ci.hwnd (env.step1_data ci),
           Event.heap_alloc_zero env.heap_alloc_zero,
           Event.macdrv_create_metal_device 0,
           Event.pvkDestroySurfaceKHR inst 0 0,
           Event.heap_free env.heap_alloc_zero,
           Event.release_win_data (env.step1_data ci)]
      ∧ r.world.heap env.heap_alloc_zero = none := by
  unfold SurfaceEnv.step1_data at hdata ⊢
  unfold macdrv_vkCreateWin32SurfaceKHR
  simp only [htop, ne_eq, not_true_eq_false, if_false, hdata, halloc, hdev, if_true,
    create_surface_err, wine_vk_surface_destroy, World.store, World.emit, World.heap_free]
  simp

/-- Step 4 fails: no view. -/
theorem create_surface_view_fails (env : SurfaceEnv) (inst allocator : Nat)
    (ci : VkWin32SurfaceCreateInfoKHR) (w : World)
    (htop : env.GetAncestor ci.hwnd = env.GetDesktopWindow)
    (hdata : env.step1_data ci ≠ 0) (halloc : env.heap_alloc_zero ≠ 0)
    (hdev : env.macdrv_create_metal_device ≠ 0) (hview : env.step4_view ci = 0) :
    ∃ r, macdrv_vkCreateWin32SurfaceKHR env inst ci allocator w = some r
      ∧ r.res = VK_ERROR_OUT_OF_HOST_MEMORY ∧ r.surface = none
      ∧ r.world.trace = w.trace ++
          [Event.get_win_data ci.hwnd (env.step1_data ci),
           Event.heap_alloc_zero env.heap_alloc_zero,
           Event.macdrv_create_metal_device env.macdrv_create_metal_device,
           Event.macdrv_view_get_metal_view (env.client_cocoa_view (env.step1_data ci))
             env.macdrv_create_metal_device 0,
           Event.pvkDestroySurfaceKHR inst 0 0,
           Event.macdrv_release_metal_device env.macdrv_create_metal_device,
           Event.heap_free env.heap_alloc_zero,
           Event.release_win_data (env.step1_data ci)]
      ∧ r.world.heap env.heap_alloc_zero = none := by
  unfold SurfaceEnv.step4_view at hview
  unfold SurfaceEnv.step1_data at hdata ⊢
  unfold macdrv_vkCreateWin32SurfaceKHR
  simp only [htop, ne_eq, not_true_eq_false, if_false, hdata, halloc, hdev, hview, if_true,
    create_surface_err, wine_vk_surface_destroy, World.store, World.emit, World.heap_free]
  simp [hdev]

/-- Step 5 fails: the host does not create the native surface. -/
theorem create_surface_host_fails (env : SurfaceEnv) (inst allocator : Nat)
    (ci : VkWin32SurfaceCreateInfoKHR) (w : World)
    (htop : env.GetAncestor ci.hwnd = env.GetDesktopWindow)
    (hdata : env.step1_data ci ≠ 0) (halloc : env.heap_alloc_zero ≠ 0)
    (hdev : env.macdrv_create_metal_device ≠ 0) (hview : env.step4_view ci ≠ 0)
    (hhost : (env.step5_host inst ci).1 ≠ VK_SUCCESS) :
    ∃ r, macdrv_vkCreateWin32SurfaceKHR env inst ci allocator w = some r
      ∧ r.res = (env.step5_host inst ci).1 ∧ r.surface = none
      ∧ r.world.trace = w.trace ++
          [Event.get_win_data ci.hwnd (env.step1_data ci),
           Event.heap_alloc_zero env.heap_alloc_zero,
           Event.macdrv_create_metal_device env.macdrv_create_metal_device,
           Event.macdrv_view_get_metal_view (env.client_cocoa_view (env.step1_data ci))
             env.macdrv_create_metal_device (env.step4_view ci),
           Event.pvkCreateMacOSSurfaceMVK inst (env.step5_info ci) 0
             (env.step5_host inst ci).1 (env.step5_host inst ci).2,
           Event.pvkDestroySurfaceKHR inst (env.step5_host inst ci).2 0,
           Event.macdrv_view_remove_metal_view (env.step4_view ci),
           Event.macdrv_release_metal_device env.macdrv_create_metal_device,
           Event.heap_free env.heap_alloc_zero,
           Event.release_win_data (env.step1_data ci)]
      ∧ r.world.heap env.heap_alloc_zero = none := by
  unfold SurfaceEnv.step5_host SurfaceEnv.step5_info at hhost ⊢
  unfold SurfaceEnv.step4_view at hview hhost ⊢
  unfold SurfaceEnv.step1_data at hdata ⊢
  unfold macdrv_vkCreateWin32SurfaceKHR
  simp only [htop, ne_eq, not_true_eq_false, if_false, hdata, halloc, hdev, hview, hhost,
    if_true, not_false_eq_true,
    create_surface_err, wine_vk_surface_destroy, World.store, World.emit, World.heap_free]
  simp [hdev, hview]

/-- Every step succeeds. -/
theorem create_surface_succeeds (env : SurfaceEnv) (inst allocator : Nat)
    (ci : VkWin32SurfaceCreateInfoKHR) (w : World)
    (htop : env.GetAncestor ci.hwnd = env.GetDesktopWindow)
    (hdata : env.step1_data ci ≠ 0) (halloc : env.heap_alloc_zero ≠ 0)
    (hdev : env.macdrv_create_metal_device ≠ 0) (hview : env.step4_view ci ≠ 0)
    (hhost : (env.step5_host inst ci).1 = VK_SUCCESS) :
    ∃ r, macdrv_vkCreateWin32SurfaceKHR env inst ci allocator w = some r
      ∧ r.res = VK_SUCCESS ∧ r.surface = some env.heap_alloc_zero
      ∧ r.world.trace = w.trace ++
          [Event.get_win_data ci.hwnd (env.step1_data ci),
           Event.heap_alloc_zero env.heap_alloc_zero,
           Event.macdrv_create_metal_device env.macdrv_create_metal_device,
           Event.macdrv_view_get_metal_view (env.client_cocoa_view (env.step1_data ci))
             env.macdrv_create_metal_device (env.step4_view ci),
           Event.pvkCreateMacOSSurfaceMVK inst (env.step5_info ci) 0
             (env.step5_host inst ci).1 (env.step5_host inst ci).2,
           Event.release_win_data (env.step1_data ci)]
      ∧ r.world.heap env.heap_alloc_zero
          = some { device := env.macdrv_create_metal_device
                   view := env.step4_view ci
                   surface := (env.step5_host inst ci).2 } := by
  unfold SurfaceEnv.step5_host SurfaceEnv.step5_info at hhost ⊢
  unfold SurfaceEnv.step4_view at hview hhost ⊢
  unfold SurfaceEnv.step1_data at hdata ⊢
  unfold macdrv_vkCreateWin32SurfaceKHR
  simp only [htop, ne_eq, not_true_eq_false, if_false, hdata, halloc, hdev, hview, hhost,
    if_true, not_false_eq_true,
    create_surface_err, wine_vk_surface_destroy, World.store, World.emit, World.heap_free]
  simp [hhost]

/-- C4: on a top-level window the call returns, and its result code is that of
the first step that fails: `VK_ERROR_INCOMPATIBLE_DRIVER` when the registry
does not resolve the window; otherwise `VK_ERROR_OUT_OF_HOST_MEMORY` when the
allocation, the device or the view fails; otherwise the host's code when the
host's native-surface creation does not succeed; otherwise `VK_SUCCESS`. -/
theorem C4_create_surface_result_code (env : SurfaceEnv) (inst allocator : Nat)
    (ci : VkWin32SurfaceCreateInfoKHR) (w : World)
    (htop : env.GetAncestor ci.hwnd = env.GetDesktopWindow) :
    ∃ r, macdrv_vkCreateWin32SurfaceKHR env inst ci allocator w = some r
      ∧ r.res =
          if env.step1_data ci = 0 then VK_ERROR_INCOMPATIBLE_DRIVER
          else if env.heap_alloc_zero = 0 ∨ env.macdrv_create_metal_device = 0
              ∨ env.step4_view ci = 0 then VK_ERROR_OUT_OF_HOST_MEMORY
          else if (env.step5_host inst ci).1 ≠ VK_SUCCESS then (env.step5_host inst ci).1
          else VK_SUCCESS := by
  by_cases hdata : env.step1_data ci = 0
  · obtain ⟨r, hr, hres, _⟩ := create_surface_no_win_data env inst allocator ci w htop hdata
    exact ⟨r, hr, by rw [hres, if_pos hdata]⟩
  rw [if_neg hdata]
  by_cases halloc : env.heap_alloc_zero = 0
  · obtain ⟨r, hr, hres, _⟩ :=
      create_surface_alloc_fails env inst allocator ci w htop hdata halloc
    exact ⟨r, hr, by rw [hres, if_pos (Or.inl halloc)]⟩
  by_cases hdev : env.macdrv_create_metal_device = 0
  · obtain ⟨r, hr, hres, _⟩ :=
      create_surface_device_fails env inst allocator ci w htop hdata halloc hdev
    exact ⟨r, hr, by rw [hres, if_pos (Or.inr (Or.inl hdev))]⟩
  by_cases hview : env.step4_view ci = 0
  · obtain ⟨r, hr, hres, _⟩ :=
      create_surface_view_fails env inst allocator ci w htop hdata halloc hdev hview
    exact ⟨r, hr, by rw [hres, if_pos (Or.inr (Or.inr hview))]⟩
  rw [if_neg (by simp [halloc, hdev, hview])]
  by_cases hhost : (env.step5_host inst ci).1 = VK_SUCCESS
  · obtain ⟨r, hr, hres, _⟩ :=
      create_surface_succeeds env inst allocator ci w htop hdata halloc hdev hview hhost
    exact ⟨r, hr, by rw [hres, if_neg (by simp [hhost])]⟩
  · obtain ⟨r, hr, hres, _⟩ :=
      create_surface_host_fails env inst allocator ci w htop hdata halloc hdev hview hhost
    exact ⟨r, hr, by rw [hres, if_pos hhost]⟩

/-- Witness for C4: the host refuses the native surface with code -3 and the
call returns -3. -/
theorem C4_create_surface_result_code_witness :
    (sample_env (-3)).GetAncestor (VkWin32SurfaceCreateInfoKHR.mk 7).hwnd
        = (sample_env (-3)).GetDesktopWindow
      ∧ (∃ r, macdrv_vkCreateWin32SurfaceKHR (sample_env (-3)) 2 ⟨7⟩ 0 World.empty = some r
          ∧ r.res =
              if (sample_env (-3)).step1_data ⟨7⟩ = 0 then VK_ERROR_INCOMPATIBLE_DRIVER
              else if (sample_env (-3)).heap_alloc_zero = 0
                  ∨ (sample_env (-3)).macdrv_create_metal_device = 0
                  ∨ (sample_env (-3)).step4_view ⟨7⟩ = 0 then VK_ERROR_OUT_OF_HOST_MEMORY
              else if ((sample_env (-3)).step5_host 2 ⟨7⟩).1 ≠ VK_SUCCESS then
                ((sample_env (-3)).step5_host 2 ⟨7⟩).1
              else VK_SUCCESS)
      ∧ (macdrv_vkCreateWin32SurfaceKHR (sample_env (-3)) 2 ⟨7⟩ 0 World.empty).map
          (fun r => r.res) = some (-3) :=
  ⟨rfl, C4_create_surface_result_code (sample_env (-3)) 2 0 ⟨7⟩ World.empty rfl, by decide⟩

/-- C5: on a top-level window whose window-data record was found, when the
allocation, the device, the view or the host's native-surface creation fails,
the call returns without storing a handle, and among the calls it made the
window-data record is released exactly once, the composite object is freed
exactly once if it was allocated (and is then no longer live), the device is
released exactly once if it was acquired and the view is removed exactly once
if it was acquired; for each of the four collaborators the number of releases
equals the number of successful acquisitions. -/
theorem C5_create_surface_unwinds_on_failure (env : SurfaceEnv) (inst allocator : Nat)
    (ci : VkWin32SurfaceCreateInfoKHR) (w : World)
    (htop : env.GetAncestor ci.hwnd = env.GetDesktopWindow)
    (hdata : env.step1_data ci ≠ 0)
    (hfail : env.heap_alloc_zero = 0 ∨ env.macdrv_create_metal_device = 0
      ∨ env.step4_view ci = 0 ∨ (env.step5_host inst ci).1 ≠ VK_SUCCESS) :
    ∃ r t, macdrv_vkCreateWin32SurfaceKHR env inst ci allocator w = some r
      ∧ r.world.trace = w.trace ++ t
      ∧ r.surface = none
      ∧ calls (Event.release_win_data (env.step1_data ci)) t = 1
      ∧ released_win_data t = acquired_win_data t
      ∧ calls (Event.heap_free env.heap_alloc_zero) t
          = (if env.heap_alloc_zero ≠ 0 then 1 else 0)
      ∧ freed_objects t = allocated_objects t
      ∧ calls (Event.macdrv_release_metal_device env.macdrv_create_metal_device) t
          = (if env.heap_alloc_zero ≠ 0 ∧ env.macdrv_create_metal_device ≠ 0 then 1 else 0)
      ∧ released_devices t = acquired_devices t
      ∧ calls (Event.macdrv_view_remove_metal_view (env.step4_view ci)) t
          = (if env.heap_alloc_zero ≠ 0 ∧ env.macdrv_create_metal_device ≠ 0
                ∧ env.step4_view ci ≠ 0 then 1 else 0)
      ∧ released_views t = acquired_views t
      ∧ (env.heap_alloc_zero ≠ 0 → r.world.heap env.heap_alloc_zero = none) := by
  by_cases halloc : env.heap_alloc_zero = 0
  · obtain ⟨r, hr, _, hsurf, htr, _⟩ :=
      create_surface_alloc_fails env inst allocator ci w htop hdata halloc
    have hheap : env.heap_alloc_zero ≠ 0 → r.world.heap env.heap_alloc_zero = none :=
      fun h => absurd halloc h
    refine ⟨r, _, hr, htr, hsurf, ?_⟩
    simp [calls, released_win_data, acquired_win_data, freed_objects, allocated_objects,
      released_devices, acquired_devices, released_views, acquired_views, hdata, halloc, hheap]
  by_cases hdev : env.macdrv_create_metal_device = 0
  · obtain ⟨r, hr, _, hsurf, htr, hheap⟩ :=
      create_surface_device_fails env inst allocator ci w htop hdata halloc hdev
    refine ⟨r, _, hr, htr, hsurf, ?_⟩
    simp [calls, released_win_data, acquired_win_data, freed_objects, allocated_objects,
      released_devices, acquired_devices, released_views, acquired_views, hdata, halloc, hdev,
      hheap]
  by_cases hview : env.step4_view ci = 0
  · obtain ⟨r, hr, _, hsurf, htr, hheap⟩ :=
      create_surface_view_fails env inst allocator ci w htop hdata halloc hdev hview
    refine ⟨r, _, hr, htr, hsurf, ?_⟩
    simp [calls, released_win_data, acquired_win_data, freed_objects, allocated_objects,
      released_devices, acquired_devices, released_views, acquired_views, hdata, halloc, hdev,
      hview, hheap]
  have hhost : (env.step5_host inst ci).1 ≠ VK_SUCCESS := by
    rcases hfail with h | h | h | h
    · exact absurd h halloc
    · exact absurd h hdev
    · exact absurd h hview
    · exact h
  obtain ⟨r, hr, _, hsurf, htr, hheap⟩ :=
    create_surface_host_fails env inst allocator ci w htop hdata halloc hdev hview hhost
  refine ⟨r, _, hr, htr, hsurf, ?_⟩
  simp [calls, released_win_data, acquired_win_data, freed_objects, allocated_objects,
    released_devices, acquired_devices, released_views, acquired_views, hdata, halloc, hdev,
    hview, hheap]

/-- Witness for C5: the host refuses the native surface with code -3. -/
theorem C5_create_surface_unwinds_on_failure_witness :
    (∃ r t, macdrv_vkCreateWin32SurfaceKHR (sample_env (-3)) 2 ⟨7⟩ 0 World.empty = some r
      ∧ r.world.trace = World.empty.trace ++ t
      ∧ r.surface = none
      ∧ calls (Event.release_win_data ((sample_env (-3)).step1_data ⟨7⟩)) t = 1
      ∧ released_win_data t = acquired_win_data t
      ∧ calls (Event.heap_free (sample_env (-3)).heap_alloc_zero) t
          = (if (sample_env (-3)).heap_alloc_zero ≠ 0 then 1 else 0)
      ∧ freed_objects t = allocated_objects t
      ∧ calls (Event.macdrv_release_metal_device
            (sample_env (-3)).macdrv_create_metal_device) t
          = (if (sample_env (-3)).heap_alloc_zero ≠ 0
                ∧ (sample_env (-3)).macdrv_create_metal_device ≠ 0 then 1 else 0)
      ∧ released_devices t = acquired_devices t
      ∧ calls (Event.macdrv_view_remove_metal_view ((sample_env (-3)).step4_view ⟨7⟩)) t
          = (if (sample_env (-3)).heap_alloc_zero ≠ 0
                ∧ (sample_env (-3)).macdrv_create_metal_device ≠ 0
                ∧ (sample_env (-3)).step4_view ⟨7⟩ ≠ 0 then 1 else 0)
      ∧ released_views t = acquired_views t
      ∧ ((sample_env (-3)).heap_alloc_zero ≠ 0 →
          r.world.heap (sample_env (-3)).heap_alloc_zero = none))
      ∧ (macdrv_vkCreateWin32SurfaceKHR (sample_env (-3)) 2 ⟨7⟩ 0 World.empty).map
          (fun r => r.world.trace)
        = some [Event.get_win_data 7 3, Event.heap_alloc_zero 8,
                Event.macdrv_create_metal_device 5,
                Event.macdrv_view_get_metal_view 4 5 6,
                Event.pvkCreateMacOSSurfaceMVK 2
                  { sType := 1000123000, pNext := 0, flags := 0, pView := 6 } 0 (-3) 9,
                Event.pvkDestroySurfaceKHR 2 9 0,
                Event.macdrv_view_remove_metal_view 6,
                Event.macdrv_release_metal_device 5,
                Event.heap_free 8,
                Event.release_win_data 3] :=
  ⟨C5_create_surface_unwinds_on_failure (sample_env (-3)) 2 0 ⟨7⟩ World.empty rfl
      (by decide) (Or.inr (Or.inr (Or.inr (by decide)))),
    by decide⟩

/-- C6: when every step succeeds the call returns `VK_SUCCESS` and stores as
handle the address of the newly allocated object; `surface_from_handle` of
that handle is the object, which holds the device of step 3, the view of
step 4 (the `pView` handed to the host) and the native surface the host
produced; the calls made are the five acquisitions followed by one release of
the window-data record, with no view, device or native surface released and
nothing freed. -/
theorem C6_create_surface_success (env : SurfaceEnv) (inst allocator : Nat)
    (ci : VkWin32SurfaceCreateInfoKHR) (w : World)
    (htop : env.GetAncestor ci.hwnd = env.GetDesktopWindow)
    (hdata : env.step1_data ci ≠ 0) (halloc : env.heap_alloc_zero ≠ 0)
    (hdev : env.macdrv_create_metal_device ≠ 0) (hview : env.step4_view ci ≠ 0)
    (hhost : (env.step5_host inst ci).1 = VK_SUCCESS) :
    ∃ r h t, macdrv_vkCreateWin32SurfaceKHR env inst ci allocator w = some r
      ∧ r.res = VK_SUCCESS
      ∧ r.surface = some h
      ∧ surface_from_handle h = env.heap_alloc_zero
      ∧ r.world.heap (surface_from_handle h)
          = some { device := env.macdrv_create_metal_device
                   view := env.step4_view ci
                   surface := (env.step5_host inst ci).2 }
      ∧ r.world.trace = w.trace ++ t
      ∧ t = [Event.get_win_data ci.hwnd (env.step1_data ci),
             Event.heap_alloc_zero env.heap_alloc_zero,
             Event.macdrv_create_metal_device env.macdrv_create_metal_device,
             Event.macdrv_view_get_metal_view (env.client_cocoa_view (env.step1_data ci))
               env.macdrv_create_metal_device (env.step4_view ci),
             Event.pvkCreateMacOSSurfaceMVK inst
               { sType := VK_STRUCTURE_TYPE_MACOS_SURFACE_CREATE_INFO_MVK, pNext := 0,
                 flags := 0, pView := env.step4_view ci }
               0 (env.step5_host inst ci).1 (env.step5_host inst ci).2,
             Event.release_win_data (env.step1_data ci)]
      ∧ calls (Event.release_win_data (env.step1_data ci)) t = 1
      ∧ released_win_data t = 1
      ∧ released_views t = 0 ∧ released_devices t = 0 ∧ destroyed_surfaces t = 0
      ∧ freed_objects t = 0 := by
  obtain ⟨r, hr, hres, hsurf, htr, hheap⟩ :=
    create_surface_succeeds env inst allocator ci w htop hdata halloc hdev hview hhost
  refine ⟨r, env.heap_alloc_zero, _, hr, hres, hsurf, rfl, hheap, htr, rfl, ?_⟩
  simp [calls, released_win_data, released_views, released_devices, destroyed_surfaces,
    freed_objects]

/-- Witness for C6: every collaborator succeeds. -/
theorem C6_create_surface_success_witness :
    ∃ r h t, macdrv_vkCreateWin32SurfaceKHR (sample_env 0) 2 ⟨7⟩ 0 World.empty = some r
      ∧ r.res = VK_SUCCESS
      ∧ r.surface = some h
      ∧ surface_from_handle h = (sample_env 0).heap_alloc_zero
      ∧ r.world.heap (surface_from_handle h)
          = some { device := (sample_env 0).macdrv_create_metal_device
                   view := (sample_env 0).step4_view ⟨7⟩
                   surface := ((sample_env 0).step5_host 2 ⟨7⟩).2 }
      ∧ r.world.trace = World.empty.trace ++ t
      ∧ t = [Event.get_win_data (VkWin32SurfaceCreateInfoKHR.mk 7).hwnd
               ((sample_env 0).step1_data ⟨7⟩),
             Event.heap_alloc_zero (sample_env 0).heap_alloc_zero,
             Event.macdrv_create_metal_device (sample_env 0).macdrv_create_metal_device,
             Event.macdrv_view_get_metal_view
               ((sample_env 0).client_cocoa_view ((sample_env 0).step1_data ⟨7⟩))
               (sample_env 0).macdrv_create_metal_device ((sample_env 0).step4_view ⟨7⟩),
             Event.pvkCreateMacOSSurfaceMVK 2
               { sType := VK_STRUCTURE_TYPE_MACOS_SURFACE_CREATE_INFO_MVK, pNext := 0,
                 flags := 0, pView := (sample_env 0).step4_view ⟨7⟩ }
               0 ((sample_env 0).step5_host 2 ⟨7⟩).1 ((sample_env 0).step5_host 2 ⟨7⟩).2,
             Event.release_win_data ((sample_env 0).step1_data ⟨7⟩)]
      ∧ calls (Event.release_win_data ((sample_env 0).step1_data ⟨7⟩)) t = 1
      ∧ released_win_data t = 1
      ∧ released_views t = 0 ∧ released_devices t = 0 ∧ destroyed_surfaces t = 0
      ∧ freed_objects t = 0 :=
  C6_create_surface_success (sample_env 0) 2 0 ⟨7⟩ World.empty rfl (by decide) (by decide)
    (by decide) (by decide) (by decide)

/-! ## Dispatch resolver -/

/-- The prefix test of the resolvers passes exactly on names that begin with the
two characters of the API prefix. -/
theorem prefix_ok_iff (s : String) :
    ¬ (char_at s 0 ≠ 'v' ∨ char_at s 1 ≠ 'k') ↔
      s.data = 'v' :: 'k' :: (cstr_advance s 2).data := by
  rcases s with ⟨l⟩
  rcases l with _ | ⟨a, _ | ⟨b, l⟩⟩ <;> simp [char_at, cstr_advance, List.getD]

/-- Past the prefix test, comparing the advanced name with a short name is
comparing the whole name with the prefixed one. -/
theorem advance_eq_iff (s x full : String) (hfull : full.data = 'v' :: 'k' :: x.data)
    (hp : ¬ (char_at s 0 ≠ 'v' ∨ char_at s 1 ≠ 'k')) : cstr_advance s 2 = x ↔ s = full := by
  rw [prefix_ok_iff] at hp
  constructor
  · intro h
    apply String.ext
    rw [hp, h, hfull]
  · intro h
    subst h
    apply String.ext
    simp [cstr_advance, hfull]

/-- A name failing the prefix test is none of the prefixed names. -/
theorem bad_prefix_ne (s full : String) (x : List Char)
    (hfull : full.data = 'v' :: 'k' :: x)
    (hp : char_at s 0 ≠ 'v' ∨ char_at s 1 ≠ 'k') : s ≠ full := by
  rintro rfl
  simp [char_at, hfull] at hp

/-- The device-scoped lookup as a chain of comparisons of the whole name. -/
theorem device_chain (funcs : vulkan_funcs) (s : String) :
    get_vulkan_driver_device_proc_addr funcs (some s) =
      if s = "vkAcquireNextImageKHR" then funcs.p_vkAcquireNextImageKHR
      else if s = "vkCreateSwapchainKHR" then funcs.p_vkCreateSwapchainKHR
      else if s = "vkDestroySwapchainKHR" then funcs.p_vkDestroySwapchainKHR
      else if s = "vkGetDeviceProcAddr" then funcs.p_vkGetDeviceProcAddr
      else if s = "vkGetSwapchainImagesKHR" then funcs.p_vkGetSwapchainImagesKHR
      else if s = "vkQueuePresentKHR" then funcs.p_vkQueuePresentKHR
      else .null := by
  unfold get_vulkan_driver_device_proc_addr
  dsimp only
  by_cases hp : char_at s 0 ≠ 'v' ∨ char_at s 1 ≠ 'k'
  · rw [if_pos hp]
    rw [if_neg (bad_prefix_ne s _ _ rfl hp), if_neg (bad_prefix_ne s _ _ rfl hp),
      if_neg (bad_prefix_ne s _ _ rfl hp), if_neg (bad_prefix_ne s _ _ rfl hp),
      if_neg (bad_prefix_ne s _ _ rfl hp), if_neg (bad_prefix_ne s _ _ rfl hp)]
  · rw [if_neg hp]
    simp only [advance_eq_iff s "AcquireNextImageKHR" "vkAcquireNextImageKHR" rfl hp,
      advance_eq_iff s "CreateSwapchainKHR" "vkCreateSwapchainKHR" rfl hp,
      advance_eq_iff s "DestroySwapchainKHR" "vkDestroySwapchainKHR" rfl hp,
      advance_eq_iff s "GetDeviceProcAddr" "vkGetDeviceProcAddr" rfl hp,
      advance_eq_iff s "GetSwapchainImagesKHR" "vkGetSwapchainImagesKHR" rfl hp,
      advance_eq_iff s "QueuePresentKHR" "vkQueuePresentKHR" rfl hp]

/-- The instance-scoped lookup as a chain of comparisons of the whole name. -/
theorem instance_chain (funcs : vulkan_funcs) (inst : Nat) (s : String) :
    get_vulkan_driver_instance_proc_addr funcs inst (some s) =
      if s = "vkCreateInstance" then funcs.p_vkCreateInstance
      else if s = "vkEnumerateInstanceExtensionProperties" then
        funcs.p_vkEnumerateInstanceExtensionProperties
      else if inst = 0 then .null
      else if s = "vkCreateWin32SurfaceKHR" then funcs.p_vkCreateWin32SurfaceKHR
      else if s = "vkDestroyInstance" then funcs.p_vkDestroyInstance
      else if s = "vkDestroySurfaceKHR" then funcs.p_vkDestroySurfaceKHR
      else if s = "vkGetInstanceProcAddr" then funcs.p_vkGetInstanceProcAddr
      else if s = "vkGetPhysicalDeviceSurfaceCapabilitiesKHR" then
        funcs.p_vkGetPhysicalDeviceSurfaceCapabilitiesKHR
      else if s = "vkGetPhysicalDeviceSurfaceFormatsKHR" then
        funcs.p_vkGetPhysicalDeviceSurfaceFormatsKHR
      else if s = "vkGetPhysicalDeviceSurfacePresentModesKHR" then
        funcs.p_vkGetPhysicalDeviceSurfacePresentModesKHR
      else if s = "vkGetPhysicalDeviceSurfaceSupportKHR" then
        funcs.p_vkGetPhysicalDeviceSurfaceSupportKHR
      else if s = "vkGetPhysicalDeviceWin32PresentationSupportKHR" then
        funcs.p_vkGetPhysicalDeviceWin32PresentationSupportKHR
      else get_vulkan_driver_device_proc_addr funcs (some s) := by
  unfold get_vulkan_driver_instance_proc_addr
  dsimp only
  by_cases hp : char_at s 0 ≠ 'v' ∨ char_at s 1 ≠ 'k'
  · rw [if_pos hp]
    have hd : get_vulkan_driver_device_proc_addr funcs (some s) = .null := by
      unfold get_vulkan_driver_device_proc_addr
      dsimp only
      rw [if_pos hp]
    rw [hd]
    rw [if_neg (bad_prefix_ne s _ _ rfl hp), if_neg (bad_prefix_ne s _ _ rfl hp)]
    split
    · rfl
    · rw [if_neg (bad_prefix_ne s _ _ rfl hp), if_neg (bad_prefix_ne s _ _ rfl hp),
        if_neg (bad_prefix_ne s _ _ rfl hp), if_neg (bad_prefix_ne s _ _ rfl hp),
        if_neg (bad_prefix_ne s _ _ rfl hp), if_neg (bad_prefix_ne s _ _ rfl hp),
        if_neg (bad_prefix_ne s _ _ rfl hp), if_neg (bad_prefix_ne s _ _ rfl hp),
        if_neg (bad_prefix_ne s _ _ rfl hp)]
  · rw [if_neg hp]
    simp only [advance_eq_iff s "CreateInstance" "vkCreateInstance" rfl hp,
      advance_eq_iff s "EnumerateInstanceExtensionProperties"
        "vkEnumerateInstanceExtensionProperties" rfl hp,
      advance_eq_iff s "CreateWin32SurfaceKHR" "vkCreateWin32SurfaceKHR" rfl hp,
      advance_eq_iff s "DestroyInstance" "vkDestroyInstance" rfl hp,
      advance_eq_iff s "DestroySurfaceKHR" "vkDestroySurfaceKHR" rfl hp,
      advance_eq_iff s "GetInstanceProcAddr" "vkGetInstanceProcAddr" rfl hp,
      advance_eq_iff s "GetPhysicalDeviceSurfaceCapabilitiesKHR"
        "vkGetPhysicalDeviceSurfaceCapabilitiesKHR" rfl hp,
      advance_eq_iff s "GetPhysicalDeviceSurfaceFormatsKHR"
        "vkGetPhysicalDeviceSurfaceFormatsKHR" rfl hp,
      advance_eq_iff s "GetPhysicalDeviceSurfacePresentModesKHR"
        "vkGetPhysicalDeviceSurfacePresentModesKHR" rfl hp,
      advance_eq_iff s "GetPhysicalDeviceSurfaceSupportKHR"
        "vkGetPhysicalDeviceSurfaceSupportKHR" rfl hp,
      advance_eq_iff s "GetPhysicalDeviceWin32PresentationSupportKHR"
        "vkGetPhysicalDeviceWin32PresentationSupportKHR" rfl hp]


/-- The table lookup by name as a chain of comparisons. -/
theorem table_entry_chain (funcs : vulkan_funcs) (name : String) :
    table_entry funcs name =
      if name = "vkAcquireNextImageKHR" then funcs.p_vkAcquireNextImageKHR
      else if name = "vkCreateInstance" then funcs.p_vkCreateInstance
      else if name = "vkCreateSwapchainKHR" then funcs.p_vkCreateSwapchainKHR
      else if name = "vkCreateWin32SurfaceKHR" then funcs.p_vkCreateWin32SurfaceKHR
      else if name = "vkDestroyInstance" then funcs.p_vkDestroyInstance
      else if name = "vkDestroySurfaceKHR" then funcs.p_vkDestroySurfaceKHR
      else if name = "vkDestroySwapchainKHR" then funcs.p_vkDestroySwapchainKHR
      else if name = "vkEnumerateInstanceExtensionProperties" then
        funcs.p_vkEnumerateInstanceExtensionProperties
      else if name = "vkGetDeviceProcAddr" then funcs.p_vkGetDeviceProcAddr
      else if name = "vkGetInstanceProcAddr" then funcs.p_vkGetInstanceProcAddr
      else if name = "vkGetPhysicalDeviceSurfaceCapabilitiesKHR" then
        funcs.p_vkGetPhysicalDeviceSurfaceCapabilitiesKHR
      else if name = "vkGetPhysicalDeviceSurfaceFormatsKHR" then
        funcs.p_vkGetPhysicalDeviceSurfaceFormatsKHR
      else if name = "vkGetPhysicalDeviceSurfacePresentModesKHR" then
        funcs.p_vkGetPhysicalDeviceSurfacePresentModesKHR
      else if name = "vkGetPhysicalDeviceSurfaceSupportKHR" then
        funcs.p_vkGetPhysicalDeviceSurfaceSupportKHR
      else if name = "vkGetPhysicalDeviceWin32PresentationSupportKHR" then
        funcs.p_vkGetPhysicalDeviceWin32PresentationSupportKHR
      else if name = "vkGetSwapchainImagesKHR" then funcs.p_vkGetSwapchainImagesKHR
      else if name = "vkQueuePresentKHR" then funcs.p_vkQueuePresentKHR
      else FnPtr.null := by
  have step : ∀ (k : String) (v : FnPtr) (l : List (String × FnPtr)),
      ((List.lookup name ((k, v) :: l)).getD FnPtr.null)
        = if name = k then v else (List.lookup name l).getD FnPtr.null := by
    intro k v l
    by_cases h : name = k
    · subst h; simp [List.lookup]
    · have : (name == k) = false := by simpa using h
      rw [List.lookup, this, if_neg h]
  unfold table_entry dispatch_entries
  repeat rw [step]
  rfl



/-- Membership in the list of dispatch names, spelled out. -/
theorem mem_dispatch_names (name : String) : name ∈ dispatch_names ↔
    (name = "vkCreateInstance" ∨ name = "vkEnumerateInstanceExtensionProperties"
     ∨ name = "vkCreateWin32SurfaceKHR" ∨ name = "vkDestroyInstance"
     ∨ name = "vkDestroySurfaceKHR" ∨ name = "vkGetInstanceProcAddr"
     ∨ name = "vkGetPhysicalDeviceSurfaceCapabilitiesKHR"
     ∨ name = "vkGetPhysicalDeviceSurfaceFormatsKHR"
     ∨ name = "vkGetPhysicalDeviceSurfacePresentModesKHR"
     ∨ name = "vkGetPhysicalDeviceSurfaceSupportKHR"
     ∨ name = "vkGetPhysicalDeviceWin32PresentationSupportKHR"
     ∨ name = "vkAcquireNextImageKHR" ∨ name = "vkCreateSwapchainKHR"
     ∨ name = "vkDestroySwapchainKHR" ∨ name = "vkGetDeviceProcAddr"
     ∨ name = "vkGetSwapchainImagesKHR" ∨ name = "vkQueuePresentKHR") := by
  unfold dispatch_names instance_independent_names instance_bound_names device_level_names
  simp only [List.cons_append, List.nil_append, List.mem_cons, List.mem_singleton,
    List.not_mem_nil, or_false]

/-- Membership in the list of device-level names, spelled out. -/
theorem mem_device_level_names (name : String) : name ∈ device_level_names ↔
    (name = "vkAcquireNextImageKHR" ∨ name = "vkCreateSwapchainKHR"
     ∨ name = "vkDestroySwapchainKHR" ∨ name = "vkGetDeviceProcAddr"
     ∨ name = "vkGetSwapchainImagesKHR" ∨ name = "vkQueuePresentKHR") := by
  unfold device_level_names
  simp only [List.mem_cons, List.mem_singleton, List.not_mem_nil, or_false]

/-- Membership in the list of instance-bound names, spelled out. -/
theorem mem_instance_bound_names (name : String) : name ∈ instance_bound_names ↔
    (name = "vkCreateWin32SurfaceKHR" ∨ name = "vkDestroyInstance"
     ∨ name = "vkDestroySurfaceKHR" ∨ name = "vkGetInstanceProcAddr"
     ∨ name = "vkGetPhysicalDeviceSurfaceCapabilitiesKHR"
     ∨ name = "vkGetPhysicalDeviceSurfaceFormatsKHR"
     ∨ name = "vkGetPhysicalDeviceSurfacePresentModesKHR"
     ∨ name = "vkGetPhysicalDeviceSurfaceSupportKHR"
     ∨ name = "vkGetPhysicalDeviceWin32PresentationSupportKHR") := by
  unfold instance_bound_names
  simp only [List.mem_cons, List.mem_singleton, List.not_mem_nil, or_false]

/-- With an instance, the instance-scoped lookup is the table lookup by name. -/
theorem instance_proc_addr_eq_table_entry (funcs : vulkan_funcs) (inst : Nat)
    (name : String) (hinst : inst ≠ 0) :
    get_vulkan_driver_instance_proc_addr funcs inst (some name) = table_entry funcs name := by
  rw [instance_chain, device_chain, table_entry_chain, if_neg hinst]
  by_cases hm : name ∈ dispatch_names
  · rw [mem_dispatch_names] at hm
    rcases hm with h | h | h | h | h | h | h | h | h | h | h | h | h | h | h | h | h <;>
      subst h <;> simp
  · rw [mem_dispatch_names] at hm
    simp only [not_or] at hm
    obtain ⟨h1, h2, h3, h4, h5, h6, h7, h8, h9, h10, h11, h12, h13, h14, h15, h16, h17⟩ := hm
    simp only [if_neg h1, if_neg h2, if_neg h3, if_neg h4, if_neg h5, if_neg h6, if_neg h7,
      if_neg h8, if_neg h9, if_neg h10, if_neg h11, if_neg h12, if_neg h13, if_neg h14,
      if_neg h15, if_neg h16, if_neg h17]

/-- The driver's own table has an entry for a name exactly when the name is
one of the seventeen dispatch names. -/
theorem macdrv_table_entry_ne_null (name : String) :
    table_entry macdrv_vulkan_funcs name ≠ FnPtr.null ↔ name ∈ dispatch_names := by
  rw [table_entry_chain]
  by_cases hm : name ∈ dispatch_names
  · simp only [hm, iff_true]
    rw [mem_dispatch_names] at hm
    rcases hm with h | h | h | h | h | h | h | h | h | h | h | h | h | h | h | h | h <;>
      subst h <;> simp [macdrv_vulkan_funcs]
  · simp only [hm, iff_false, not_not]
    rw [mem_dispatch_names] at hm
    simp only [not_or] at hm
    obtain ⟨h1, h2, h3, h4, h5, h6, h7, h8, h9, h10, h11, h12, h13, h14, h15, h16, h17⟩ := hm
    simp only [if_neg h1, if_neg h2, if_neg h3, if_neg h4, if_neg h5, if_neg h6, if_neg h7,
      if_neg h8, if_neg h9, if_neg h10, if_neg h11, if_neg h12, if_neg h13, if_neg h14,
      if_neg h15, if_neg h16, if_neg h17]

/-- Without an instance, the instance-scoped lookup knows two names only. -/
theorem instance_proc_addr_null_instance (funcs : vulkan_funcs) (name : String) :
    get_vulkan_driver_instance_proc_addr funcs 0 (some name) =
      if name = "vkCreateInstance" then funcs.p_vkCreateInstance
      else if name = "vkEnumerateInstanceExtensionProperties" then
        funcs.p_vkEnumerateInstanceExtensionProperties
      else FnPtr.null := by
  rw [instance_chain]
  simp only [if_true]

/-- The device-scoped lookup is the table lookup restricted to the six
device-level names. -/
theorem device_proc_addr_eq_table_entry (funcs : vulkan_funcs) (name : String) :
    get_vulkan_driver_device_proc_addr funcs (some name) =
      if name ∈ device_level_names then table_entry funcs name else FnPtr.null := by
  rw [device_chain, table_entry_chain]
  by_cases hm : name ∈ device_level_names
  · rw [if_pos hm]
    rw [mem_device_level_names] at hm
    rcases hm with h | h | h | h | h | h <;> subst h <;> simp
  · rw [if_neg hm]
    rw [mem_device_level_names] at hm
    simp only [not_or] at hm
    obtain ⟨h1, h2, h3, h4, h5, h6⟩ := hm
    simp only [if_neg h1, if_neg h2, if_neg h3, if_neg h4, if_neg h5, if_neg h6]

/-- C8: with a non-null instance the instance-scoped lookup returns, for every
name, the table entry of that name (`NULL` for a `NULL` name); on the driver's
table the result is non-null exactly for the seventeen dispatch names; and an
instance-bound name, not found with a null instance, resolves to its entry
with a non-null one. -/
theorem C8_instance_proc_addr_with_instance (funcs : vulkan_funcs) (inst : Nat)
    (name : Option String) (hinst : inst ≠ 0) :
    get_vulkan_driver_instance_proc_addr funcs inst name
        = (match name with
           | none => FnPtr.null
           | some s => table_entry funcs s)
      ∧ (macdrv_get_vk_instance_proc_addr inst name ≠ FnPtr.null ↔
          ∃ s, s ∈ dispatch_names ∧ name = some s)
      ∧ ∀ s, s ∈ instance_bound_names →
          get_vulkan_driver_instance_proc_addr funcs 0 (some s) = FnPtr.null
          ∧ get_vulkan_driver_instance_proc_addr funcs inst (some s) = table_entry funcs s
          ∧ macdrv_get_vk_instance_proc_addr inst (some s) ≠ FnPtr.null := by
  refine ⟨?_, ?_, ?_⟩
  · cases name with
    | none => rfl
    | some s => exact instance_proc_addr_eq_table_entry funcs inst s hinst
  · cases name with
    | none => simp [macdrv_get_vk_instance_proc_addr, get_vulkan_driver_instance_proc_addr]
    | some s =>
      unfold macdrv_get_vk_instance_proc_addr
      rw [instance_proc_addr_eq_table_entry _ inst s hinst, macdrv_table_entry_ne_null]
      simp
  · intro s hs
    have hd : s ∈ dispatch_names := by
      unfold dispatch_names
      simp [hs]
    refine ⟨?_, instance_proc_addr_eq_table_entry funcs inst s hinst, ?_⟩
    · rw [instance_proc_addr_null_instance]
      rw [mem_instance_bound_names] at hs
      rcases hs with h | h | h | h | h | h | h | h | h <;> subst h <;> simp
    · unfold macdrv_get_vk_instance_proc_addr
      rw [instance_proc_addr_eq_table_entry _ inst s hinst, macdrv_table_entry_ne_null]
      exact hd

/-- Witness for C8 at instance handle 1 and the name of the surface-creation
entry point. -/
theorem C8_instance_proc_addr_with_instance_witness :
    (1 : Nat) ≠ 0
      ∧ (get_vulkan_driver_instance_proc_addr macdrv_vulkan_funcs 1
            (some "vkCreateWin32SurfaceKHR")
          = (match (some "vkCreateWin32SurfaceKHR" : Option String) with
             | none => FnPtr.null
             | some s => table_entry macdrv_vulkan_funcs s)
        ∧ (macdrv_get_vk_instance_proc_addr 1 (some "vkCreateWin32SurfaceKHR") ≠ FnPtr.null ↔
            ∃ s, s ∈ dispatch_names ∧ some "vkCreateWin32SurfaceKHR" = some s)
        ∧ ∀ s, s ∈ instance_bound_names →
            get_vulkan_driver_instance_proc_addr macdrv_vulkan_funcs 0 (some s) = FnPtr.null
            ∧ get_vulkan_driver_instance_proc_addr macdrv_vulkan_funcs 1 (some s)
                = table_entry macdrv_vulkan_funcs s
            ∧ macdrv_get_vk_instance_proc_addr 1 (some s) ≠ FnPtr.null) :=
  ⟨by decide, C8_instance_proc_addr_with_instance macdrv_vulkan_funcs 1
    (some "vkCreateWin32SurfaceKHR") (by decide)⟩


/-- C9: with a null instance the instance-scoped lookup returns the
create-instance entry for `vkCreateInstance`, the enumerate-extensions entry
for `vkEnumerateInstanceExtensionProperties` and `NULL` for every other name
(a `NULL` name, the instance-bound names and the device-level names among
them); the two instance-independent names resolve to the same entries with
any instance handle. -/
theorem C9_instance_proc_addr_null_instance (funcs : vulkan_funcs) (inst : Nat)
    (name : Option String) :
    get_vulkan_driver_instance_proc_addr funcs 0 name
        = (if name = some "vkCreateInstance" then funcs.p_vkCreateInstance
           else if name = some "vkEnumerateInstanceExtensionProperties" then
             funcs.p_vkEnumerateInstanceExtensionProperties
           else FnPtr.null)
      ∧ (∀ s, s ∈ instance_bound_names ++ device_level_names →
          get_vulkan_driver_instance_proc_addr funcs 0 (some s) = FnPtr.null)
      ∧ get_vulkan_driver_instance_proc_addr funcs inst (some "vkCreateInstance")
          = funcs.p_vkCreateInstance
      ∧ get_vulkan_driver_instance_proc_addr funcs inst
            (some "vkEnumerateInstanceExtensionProperties")
          = funcs.p_vkEnumerateInstanceExtensionProperties := by
  refine ⟨?_, ?_, ?_, ?_⟩
  · cases name with
    | none => simp [get_vulkan_driver_instance_proc_addr]
    | some s =>
      rw [instance_proc_addr_null_instance]
      simp only [Option.some.injEq]
  · intro s hs
    rw [instance_proc_addr_null_instance]
    rw [List.mem_append, mem_instance_bound_names, mem_device_level_names] at hs
    rcases hs with (h | h | h | h | h | h | h | h | h) | (h | h | h | h | h | h) <;>
      subst h <;> simp
  · rw [instance_chain]; simp
  · rw [instance_chain]; simp

/-- C10: the device-scoped lookup returns, for each of the six device-level
names, the table entry of that name and `NULL` for every other name (a `NULL`
name and every instance-level name among them); on the driver's table the
result is non-null exactly for the six names. -/
theorem C10_device_proc_addr (funcs : vulkan_funcs) (name : Option String) :
    get_vulkan_driver_device_proc_addr funcs name
        = (match name with
           | none => FnPtr.null
           | some s => if s ∈ device_level_names then table_entry funcs s else FnPtr.null)
      ∧ (macdrv_get_vk_device_proc_addr name ≠ FnPtr.null ↔
          ∃ s, s ∈ device_level_names ∧ name = some s)
      ∧ ∀ s, s ∈ instance_independent_names ++ instance_bound_names →
          get_vulkan_driver_device_proc_addr funcs (some s) = FnPtr.null := by
  refine ⟨?_, ?_, ?_⟩
  · cases name with
    | none => rfl
    | some s => exact device_proc_addr_eq_table_entry funcs s
  · cases name with
    | none => simp [macdrv_get_vk_device_proc_addr, get_vulkan_driver_device_proc_addr]
    | some s =>
      unfold macdrv_get_vk_device_proc_addr
      rw [device_proc_addr_eq_table_entry]
      by_cases hm : s ∈ device_level_names
      · rw [if_pos hm, macdrv_table_entry_ne_null]
        have hd : s ∈ dispatch_names := by
          unfold dispatch_names
          simp [hm]
        simp [hm, hd]
      · rw [if_neg hm]
        simp [hm]
  · intro s hs
    rw [device_chain]
    rw [List.mem_append, mem_instance_bound_names] at hs
    unfold instance_independent_names at hs
    simp only [List.mem_cons, List.mem_singleton, List.not_mem_nil, or_false] at hs
    rcases hs with (h | h) | (h | h | h | h | h | h | h | h | h) <;> subst h <;> simp

/-- Membership in the list of instance-level names, spelled out. -/
theorem mem_instance_level_names (name : String) : name ∈ instance_level_names ↔
    (name = "vkCreateInstance" ∨ name = "vkEnumerateInstanceExtensionProperties"
     ∨ name = "vkCreateWin32SurfaceKHR" ∨ name = "vkDestroyInstance"
     ∨ name = "vkDestroySurfaceKHR" ∨ name = "vkGetInstanceProcAddr"
     ∨ name = "vkGetPhysicalDeviceSurfaceCapabilitiesKHR"
     ∨ name = "vkGetPhysicalDeviceSurfaceFormatsKHR"
     ∨ name = "vkGetPhysicalDeviceSurfacePresentModesKHR"
     ∨ name = "vkGetPhysicalDeviceSurfaceSupportKHR"
     ∨ name = "vkGetPhysicalDeviceWin32PresentationSupportKHR") := by
  unfold instance_level_names instance_independent_names instance_bound_names
  simp only [List.cons_append, List.nil_append, List.mem_cons, List.mem_singleton,
    List.not_mem_nil, or_false]

/-- A name whose first two characters are not the API prefix fails the
prefix test of the resolvers. -/
theorem prefix_test_fails (s : String) (h : s.data.take 2 ≠ ['v', 'k']) :
    char_at s 0 ≠ 'v' ∨ char_at s 1 ≠ 'k' := by
  by_contra hc
  rw [prefix_ok_iff] at hc
  apply h
  rw [hc]
  rfl

/-- C11: for a name that is `NULL`, shorter than two characters, or whose
first two characters are not `vk`, the instance-scoped lookup (with any
instance handle, null or not) and the device-scoped lookup both return
`NULL`. -/
theorem C11_proc_addr_rejects_unprefixed (funcs : vulkan_funcs) (inst : Nat)
    (name : Option String)
    (h : name = none ∨ (∃ s, name = some s ∧ s.length < 2)
      ∨ (∃ s, name = some s ∧ s.data.take 2 ≠ ['v', 'k'])) :
    get_vulkan_driver_instance_proc_addr funcs inst name = FnPtr.null
      ∧ get_vulkan_driver_device_proc_addr funcs name = FnPtr.null := by
  have key : ∀ s : String, s.data.take 2 ≠ ['v', 'k'] →
      get_vulkan_driver_instance_proc_addr funcs inst (some s) = FnPtr.null
        ∧ get_vulkan_driver_device_proc_addr funcs (some s) = FnPtr.null := by
    intro s hs
    have hp := prefix_test_fails s hs
    constructor
    · unfold get_vulkan_driver_instance_proc_addr
      dsimp only
      rw [if_pos hp]
    · unfold get_vulkan_driver_device_proc_addr
      dsimp only
      rw [if_pos hp]
  rcases h with h | ⟨s, hs, hlen⟩ | ⟨s, hs, hne⟩
  · subst h
    exact ⟨rfl, rfl⟩
  · subst hs
    apply key
    intro hc
    have hl : (s.data.take 2).length = 2 := by rw [hc]; rfl
    rw [List.length_take] at hl
    have : s.length = s.data.length := rfl
    omega
  · subst hs
    exact key s hne

/-- Witness for C11: a name of another API, with a non-null instance. -/
theorem C11_proc_addr_rejects_unprefixed_witness :
    ((some "glGetString" : Option String) = none
        ∨ (∃ s, some "glGetString" = some s ∧ s.length < 2)
        ∨ (∃ s, some "glGetString" = some s ∧ s.data.take 2 ≠ ['v', 'k']))
      ∧ (get_vulkan_driver_instance_proc_addr macdrv_vulkan_funcs 1 (some "glGetString")
            = FnPtr.null
          ∧ get_vulkan_driver_device_proc_addr macdrv_vulkan_funcs (some "glGetString")
            = FnPtr.null) :=
  ⟨Or.inr (Or.inr ⟨"glGetString", rfl, by decide⟩),
    C11_proc_addr_rejects_unprefixed macdrv_vulkan_funcs 1 (some "glGetString")
      (Or.inr (Or.inr ⟨"glGetString", rfl, by decide⟩))⟩

/-- C12: with a non-null instance, for every name that is none of the eleven
instance-level names the instance-scoped lookup returns what the device-scoped
lookup returns; in particular, whatever the device-scoped lookup resolves, the
instance-scoped lookup resolves to the same pointer. -/
theorem C12_instance_lookup_falls_through_to_device (funcs : vulkan_funcs) (inst : Nat)
    (name : Option String) (hinst : inst ≠ 0) :
    ((∀ s, s ∈ instance_level_names → name ≠ some s) →
        get_vulkan_driver_instance_proc_addr funcs inst name
          = get_vulkan_driver_device_proc_addr funcs name)
      ∧ (get_vulkan_driver_device_proc_addr funcs name ≠ FnPtr.null →
          get_vulkan_driver_instance_proc_addr funcs inst name
            = get_vulkan_driver_device_proc_addr funcs name) := by
  have first : (∀ s, s ∈ instance_level_names → name ≠ some s) →
      get_vulkan_driver_instance_proc_addr funcs inst name
        = get_vulkan_driver_device_proc_addr funcs name := by
    intro hname
    cases name with
    | none => rfl
    | some s =>
      have hs : s ∉ instance_level_names := fun hm => hname s hm rfl
      rw [mem_instance_level_names] at hs
      simp only [not_or] at hs
      obtain ⟨h1, h2, h3, h4, h5, h6, h7, h8, h9, h10, h11⟩ := hs
      rw [instance_chain]
      simp only [if_neg h1, if_neg h2, if_neg h3, if_neg h4, if_neg h5, if_neg h6, if_neg h7,
        if_neg h8, if_neg h9, if_neg h10, if_neg h11, if_neg hinst]
  refine ⟨first, ?_⟩
  intro hdev
  apply first
  intro s hs hname
  subst hname
  rw [device_proc_addr_eq_table_entry] at hdev
  by_cases hm : s ∈ device_level_names
  · rw [mem_instance_level_names] at hs
    rw [mem_device_level_names] at hm
    rcases hs with h | h | h | h | h | h | h | h | h | h | h <;> subst h <;>
      simp at hm
  · rw [if_neg hm] at hdev
    exact hdev rfl

/-- Witness for C12: the present entry point, asked through an instance. -/
theorem C12_instance_lookup_falls_through_to_device_witness :
    (1 : Nat) ≠ 0
      ∧ (((∀ s, s ∈ instance_level_names → some "vkQueuePresentKHR" ≠ some s) →
            get_vulkan_driver_instance_proc_addr macdrv_vulkan_funcs 1
                (some "vkQueuePresentKHR")
              = get_vulkan_driver_device_proc_addr macdrv_vulkan_funcs
                (some "vkQueuePresentKHR"))
          ∧ (get_vulkan_driver_device_proc_addr macdrv_vulkan_funcs
                (some "vkQueuePresentKHR") ≠ FnPtr.null →
              get_vulkan_driver_instance_proc_addr macdrv_vulkan_funcs 1
                  (some "vkQueuePresentKHR")
                = get_vulkan_driver_device_proc_addr macdrv_vulkan_funcs
                  (some "vkQueuePresentKHR")))
      ∧ get_vulkan_driver_instance_proc_addr macdrv_vulkan_funcs 1 (some "vkQueuePresentKHR")
          = FnPtr.macdrv MacdrvProc.macdrv_vkQueuePresentKHR
      ∧ get_vulkan_driver_device_proc_addr macdrv_vulkan_funcs (some "vkQueuePresentKHR")
          = FnPtr.macdrv MacdrvProc.macdrv_vkQueuePresentKHR :=
  ⟨by decide,
    C12_instance_lookup_falls_through_to_device macdrv_vulkan_funcs 1
      (some "vkQueuePresentKHR") (by decide),
    by decide, by decide⟩


/-! ## Driver registration -/

/-- A run of the binder from storage not yet marked as initialised marks it:
storage found unchanged afterwards has seen no such run. -/
theorem wine_vk_init_marks_done (ld : Loader) (st : InitState) (h : st.init_done = false) :
    (wine_vk_init ld st).2.init_done = true := by
  unfold wine_vk_init
  simp only [h, Bool.false_eq_true, if_false]
  split
  · rfl
  · split <;> rfl

/-- C13: for a version other than the driver's, `get_vulkan_driver` returns
`NULL` and leaves the static storage of the binder exactly as it was, whatever
that storage holds and whatever the loader would answer: `wine_vk_init` is not
run and no library load is attempted. -/
theorem C13_get_vulkan_driver_version_mismatch (driver_version version : Nat) (ld : Loader)
    (st : InitState) (hv : version ≠ driver_version) :
    get_vulkan_driver driver_version ld version st = (none, st) := by
  unfold get_vulkan_driver
  rw [if_pos hv]

/-- Witness for C13: version 2 asked of a driver at version 3, before any
binding. -/
theorem C13_get_vulkan_driver_version_mismatch_witness :
    (2 : Nat) ≠ 3
      ∧ get_vulkan_driver 3 loader_missing_symbol 2 InitState.initial
          = (none, InitState.initial) :=
  ⟨by decide,
    C13_get_vulkan_driver_version_mismatch 3 2 loader_missing_symbol InitState.initial
      (by decide)⟩

/-! ## Extension translator: instance creation and enumeration edge cases -/

/-- With all declared names present and the allocation succeeding, the
conversion returns the element-wise translation of the name array. -/
theorem convert_create_info_names (src : VkInstanceCreateInfo) (names : List String)
    (hn : 0 < src.enabledExtensionCount)
    (hsrc : src.ppEnabledExtensionNames = some names)
    (hlen : src.enabledExtensionCount = names.length) :
    ∃ r, wine_vk_instance_convert_create_info true src = some r
      ∧ r.res = VK_SUCCESS
      ∧ r.dst.ppEnabledExtensionNames = some (names.map
          (fun s => if s = "VK_KHR_win32_surface" then "VK_MVK_macos_surface" else s)) := by
  have hloop := convert_extension_names_eq names src.enabledExtensionCount 0 [] (by omega)
  rw [List.drop_zero, List.nil_append, hlen, List.take_length] at hloop
  unfold wine_vk_instance_convert_create_info
  simp only [gt_iff_lt, hn, if_true, hsrc, not_true_eq_false, if_false]
  rw [hlen, hloop]
  exact ⟨_, rfl, rfl, rfl⟩

/-- C14 (as stated, refuted): the list `[VK_KHR_win32_surface,
VK_MVK_macos_surface]` has distinct entries and contains
`VK_KHR_win32_surface` exactly once, yet its translation holds
`VK_MVK_macos_surface` twice; likewise a requested list that repeats another
name keeps the repetition. -/
theorem C14_counterexample_translation_duplicates :
    List.count "VK_KHR_win32_surface" ["VK_KHR_win32_surface", "VK_MVK_macos_surface"] = 1
      ∧ (wine_vk_instance_convert_create_info true
            { sType := 1, pNext := 0, flags := 0, pApplicationInfo := 0,
              enabledLayerCount := 0, ppEnabledLayerNames := none,
              enabledExtensionCount := 2,
              ppEnabledExtensionNames :=
                some ["VK_KHR_win32_surface", "VK_MVK_macos_surface"] }).map
          (fun r => r.dst.ppEnabledExtensionNames)
          = some (some ["VK_MVK_macos_surface", "VK_MVK_macos_surface"])
      ∧ ¬ List.Nodup ["VK_MVK_macos_surface", "VK_MVK_macos_surface"]
      ∧ List.count "VK_KHR_win32_surface"
          ["VK_KHR_win32_surface", "VK_EXT_debug_utils", "VK_EXT_debug_utils"] = 1
      ∧ (wine_vk_instance_convert_create_info true
            { sType := 1, pNext := 0, flags := 0, pApplicationInfo := 0,
              enabledLayerCount := 0, ppEnabledLayerNames := none,
              enabledExtensionCount := 3,
              ppEnabledExtensionNames :=
                some ["VK_KHR_win32_surface", "VK_EXT_debug_utils", "VK_EXT_debug_utils"] }).map
          (fun r => r.dst.ppEnabledExtensionNames)
          = some (some ["VK_MVK_macos_surface", "VK_EXT_debug_utils", "VK_EXT_debug_utils"])
      ∧ ¬ List.Nodup ["VK_MVK_macos_surface", "VK_EXT_debug_utils", "VK_EXT_debug_utils"] := by
  refine ⟨by decide, by decide, by decide, by decide, by decide, by decide⟩

/-- C14 (amended): for a requested list of `n > 0` names that contains
`VK_KHR_win32_surface` exactly once, at position `p`, the translated list
contains `VK_MVK_macos_surface` at position `p`; it has no duplicate entries
provided the requested list has none and does not already contain
`VK_MVK_macos_surface`. -/
theorem C14_translation_keeps_position (src : VkInstanceCreateInfo) (names : List String)
    (p : Nat) (hsrc : src.ppEnabledExtensionNames = some names)
    (hlen : src.enabledExtensionCount = names.length)
    (hp : names.get? p = some "VK_KHR_win32_surface")
    (_hcount : names.count "VK_KHR_win32_surface" = 1) :
    ∃ out r, wine_vk_instance_convert_create_info true src = some r
      ∧ r.res = VK_SUCCESS
      ∧ r.dst.ppEnabledExtensionNames = some out
      ∧ out.get? p = some "VK_MVK_macos_surface"
      ∧ (names.Nodup → "VK_MVK_macos_surface" ∉ names → out.Nodup) := by
  have hpos : 0 < src.enabledExtensionCount := by
    rw [hlen]
    rw [List.get?_eq_getElem?] at hp
    have := (List.getElem?_eq_some_iff.mp hp).1
    omega
  obtain ⟨r, hr, hres, hnames⟩ := convert_create_info_names src names hpos hsrc hlen
  refine ⟨_, r, hr, hres, hnames, ?_, ?_⟩
  · rw [List.get?_eq_getElem?] at hp ⊢
    rw [List.getElem?_map, hp]
    rfl
  · intro hnd hmvk
    apply List.Nodup.map_on _ hnd
    intro a ha b hb hab
    by_cases h1 : a = "VK_KHR_win32_surface" <;> by_cases h2 : b = "VK_KHR_win32_surface"
    · rw [h1, h2]
    · simp only [h1, h2, if_true, if_false] at hab
      exact absurd (hab ▸ hb) hmvk
    · simp only [h1, h2, if_true, if_false] at hab
      exact absurd (hab ▸ ha) hmvk
    · simpa only [h1, h2, if_false] using hab

/-- Witness for C14 (amended): the scenario of the specification. -/
theorem C14_translation_keeps_position_witness :
    ∃ out r, wine_vk_instance_convert_create_info true
          { sType := 1, pNext := 0, flags := 0, pApplicationInfo := 0,
            enabledLayerCount := 0, ppEnabledLayerNames := none,
            enabledExtensionCount := 2,
            ppEnabledExtensionNames := some ["VK_EXT_debug_utils", "VK_KHR_win32_surface"] }
          = some r
      ∧ r.res = VK_SUCCESS
      ∧ r.dst.ppEnabledExtensionNames = some out
      ∧ out.get? 1 = some "VK_MVK_macos_surface"
      ∧ (["VK_EXT_debug_utils", "VK_KHR_win32_surface"].Nodup →
          "VK_MVK_macos_surface" ∉ ["VK_EXT_debug_utils", "VK_KHR_win32_surface"] →
          out.Nodup) :=
  C14_translation_keeps_position
    { sType := 1, pNext := 0, flags := 0, pApplicationInfo := 0,
      enabledLayerCount := 0, ppEnabledLayerNames := none,
      enabledExtensionCount := 2,
      ppEnabledExtensionNames := some ["VK_EXT_debug_utils", "VK_KHR_win32_surface"] }
    ["VK_EXT_debug_utils", "VK_KHR_win32_surface"] 1 rfl rfl (by decide) (by decide)

/-- C15: for a descriptor that declares zero extensions, whatever its
extension-name pointer and whether or not an allocation would succeed, the
conversion makes no collaborator call (no allocation), returns `VK_SUCCESS`,
and the translated descriptor declares zero extensions with a null name
list; the caller's descriptor is left as it was. -/
theorem C15_convert_create_info_no_extensions (calloc_ok : Bool) (src : VkInstanceCreateInfo)
    (h0 : src.enabledExtensionCount = 0) :
    wine_vk_instance_convert_create_info calloc_ok src
      = some { res := VK_SUCCESS
               dst := { sType := src.sType, pNext := src.pNext, flags := src.flags,
                        pApplicationInfo := src.pApplicationInfo,
                        enabledLayerCount := 0, ppEnabledLayerNames := none,
                        enabledExtensionCount := 0, ppEnabledExtensionNames := none }
               trace := []
               src := src } := by
  unfold wine_vk_instance_convert_create_info
  simp only [h0, gt_iff_lt, lt_self_iff_false, if_false]

/-- Witness for C15: zero declared extensions with a dangling name array. -/
theorem C15_convert_create_info_no_extensions_witness :
    wine_vk_instance_convert_create_info false
        { sType := 1, pNext := 2, flags := 3, pApplicationInfo := 4,
          enabledLayerCount := 1, ppEnabledLayerNames := some ["layer"],
          enabledExtensionCount := 0,
          ppEnabledExtensionNames := some ["VK_KHR_win32_surface"] }
      = some { res := VK_SUCCESS
               dst := { sType := 1, pNext := 2, flags := 3, pApplicationInfo := 4,
                        enabledLayerCount := 0, ppEnabledLayerNames := none,
                        enabledExtensionCount := 0, ppEnabledExtensionNames := none }
               trace := []
               src := { sType := 1, pNext := 2, flags := 3, pApplicationInfo := 4,
                        enabledLayerCount := 1, ppEnabledLayerNames := some ["layer"],
                        enabledExtensionCount := 0,
                        ppEnabledExtensionNames := some ["VK_KHR_win32_surface"] } } :=
  C15_convert_create_info_no_extensions false
    { sType := 1, pNext := 2, flags := 3, pApplicationInfo := 4,
      enabledLayerCount := 1, ppEnabledLayerNames := some ["layer"],
      enabledExtensionCount := 0,
      ppEnabledExtensionNames := some ["VK_KHR_win32_surface"] } rfl

/-- C16: for a descriptor that declares at least one extension, when the
allocation of the translated list fails `macdrv_vkCreateInstance` returns
`VK_ERROR_OUT_OF_HOST_MEMORY`, stores nothing through `instance`, and its only
collaborator call is the failed allocation: the host's create-instance entry
point is not called, whatever it would answer. -/
theorem C16_create_instance_allocation_failure
    (host : VkInstanceCreateInfo → Int × Option Nat) (create_info : VkInstanceCreateInfo)
    (allocator : Nat) (hn : 0 < create_info.enabledExtensionCount) :
    macdrv_vkCreateInstance false host create_info allocator
      = some { res := VK_ERROR_OUT_OF_HOST_MEMORY
               instance_out := none
               trace := [Event.heap_calloc create_info.enabledExtensionCount false] } := by
  unfold macdrv_vkCreateInstance wine_vk_instance_convert_create_info
  simp only [gt_iff_lt, hn, if_true, Bool.false_eq_true, not_false_eq_true]
  rw [if_pos (by decide)]

/-- Witness for C16: one requested extension, a host that would succeed. -/
theorem C16_create_instance_allocation_failure_witness :
    (0 : Nat) < (VkInstanceCreateInfo.mk 1 0 0 0 0 none 1
        (some ["VK_KHR_win32_surface"])).enabledExtensionCount
      ∧ macdrv_vkCreateInstance false host_creates_instance
          (VkInstanceCreateInfo.mk 1 0 0 0 0 none 1 (some ["VK_KHR_win32_surface"])) 0
        = some { res := VK_ERROR_OUT_OF_HOST_MEMORY
                 instance_out := none
                 trace := [Event.heap_calloc
                   (VkInstanceCreateInfo.mk 1 0 0 0 0 none 1
                     (some ["VK_KHR_win32_surface"])).enabledExtensionCount false] }
      ∧ macdrv_vkCreateInstance true host_creates_instance
          (VkInstanceCreateInfo.mk 1 0 0 0 0 none 1 (some ["VK_KHR_win32_surface"])) 0
        = some { res := 0
                 instance_out := some 12
                 trace := [Event.heap_calloc 1 true,
                   Event.pvkCreateInstance
                     (VkInstanceCreateInfo.mk 1 0 0 0 0 none 1
                       (some ["VK_MVK_macos_surface"])) 0 0 (some 12),
                   Event.heap_free_array (some ["VK_MVK_macos_surface"])] } :=
  ⟨by decide,
    C16_create_instance_allocation_failure host_creates_instance
      (VkInstanceCreateInfo.mk 1 0 0 0 0 none 1 (some ["VK_KHR_win32_surface"])) 0
      (by decide),
    by decide⟩

/-- C17: with a non-null layer name, whatever the count and the array,
`macdrv_vkEnumerateInstanceExtensionProperties` returns
`VK_ERROR_LAYER_NOT_PRESENT`, makes no collaborator call (the host is not
called, whatever it would answer) and leaves the count and the array as they
were. -/
theorem C17_enumerate_rejects_layer (name_size : Nat)
    (host : Option String → Nat → Option (List VkExtensionProperties) → HostEnumeration)
    (layer : String) (count : Nat) (properties : Option (List VkExtensionProperties)) :
    macdrv_vkEnumerateInstanceExtensionProperties name_size host (some layer) count properties
      = some { res := VK_ERROR_LAYER_NOT_PRESENT, count := count, properties := properties,
               trace := [] } := by
  unfold macdrv_vkEnumerateInstanceExtensionProperties
  simp only [Option.isSome_some, if_true]

/-- C18: with a null layer name, on a count-only query (null array) and on a
query whose host result is negative, the shim calls the host once and returns
the host's result and count as the host produced them; the caller's array is
absent in the first case and holds exactly what the host left in the second:
no name and no revision is rewritten. -/
theorem C18_enumerate_no_rewrite (name_size : Nat)
    (host : Option String → Nat → Option (List VkExtensionProperties) → HostEnumeration)
    (count : Nat) :
    macdrv_vkEnumerateInstanceExtensionProperties name_size host none count none
        = some { res := (host none count none).res
                 count := (host none count none).count
                 properties := none
                 trace := [Event.pvkEnumerateInstanceExtensionProperties none count none] }
      ∧ ∀ buf : List VkExtensionProperties, (host none count (some buf)).res < 0 →
          macdrv_vkEnumerateInstanceExtensionProperties name_size host none count (some buf)
            = some { res := (host none count (some buf)).res
                     count := (host none count (some buf)).count
                     properties := some (host none count (some buf)).properties
                     trace := [Event.pvkEnumerateInstanceExtensionProperties none count
                       (some buf)] } := by
  constructor
  · unfold macdrv_vkEnumerateInstanceExtensionProperties
    simp only [Option.isSome_none, Bool.false_eq_true, if_false]
  · intro buf hneg
    unfold macdrv_vkEnumerateInstanceExtensionProperties
    simp only [Option.isSome_none, Bool.false_eq_true, if_false, hneg, if_true]

/-- Witness for C18: a host that fails with code -1 after writing the
platform-native name into the caller's array; the name is handed back as the
host wrote it. -/
theorem C18_enumerate_no_rewrite_witness :
    (host_enumeration_fails none 1 (some [{ extensionName := "", specVersion := 0 }])).res < 0
      ∧ (macdrv_vkEnumerateInstanceExtensionProperties 256 host_enumeration_fails none 1 none
            = some { res := (host_enumeration_fails none 1 none).res
                     count := (host_enumeration_fails none 1 none).count
                     properties := none
                     trace := [Event.pvkEnumerateInstanceExtensionProperties none 1 none] }
          ∧ ∀ buf : List VkExtensionProperties,
              (host_enumeration_fails none 1 (some buf)).res < 0 →
              macdrv_vkEnumerateInstanceExtensionProperties 256 host_enumeration_fails none 1
                  (some buf)
                = some { res := (host_enumeration_fails none 1 (some buf)).res
                         count := (host_enumeration_fails none 1 (some buf)).count
                         properties := some (host_enumeration_fails none 1 (some buf)).properties
                         trace := [Event.pvkEnumerateInstanceExtensionProperties none 1
                           (some buf)] })
      ∧ macdrv_vkEnumerateInstanceExtensionProperties 256 host_enumeration_fails none 1
            (some [{ extensionName := "", specVersion := 0 }])
          = some { res := -1, count := 1
                   properties := some [{ extensionName := "VK_MVK_macos_surface",
                                         specVersion := 3 }]
                   trace := [Event.pvkEnumerateInstanceExtensionProperties none 1
                     (some [{ extensionName := "", specVersion := 0 }])] } :=
  ⟨by decide, C18_enumerate_no_rewrite 256 host_enumeration_fails 1, by decide⟩


/-! ## Surface lifecycle: child windows and swapchains -/

/-- C19: for a window whose parent is not the desktop window,
`macdrv_vkCreateWin32SurfaceKHR` returns `VK_ERROR_INCOMPATIBLE_DRIVER`, stores
nothing through `surface`, makes no collaborator call (no allocation, no
registry lookup, no device, no view, no host call) and leaves the heap as it
was. -/
theorem C19_create_surface_child_window (env : SurfaceEnv) (inst allocator : Nat)
    (ci : VkWin32SurfaceCreateInfoKHR) (w : World)
    (hchild : env.GetAncestor ci.hwnd ≠ env.GetDesktopWindow) :
    ∃ r, macdrv_vkCreateWin32SurfaceKHR env inst ci allocator w = some r
      ∧ r.res = VK_ERROR_INCOMPATIBLE_DRIVER
      ∧ r.surface = none
      ∧ r.world.trace = w.trace
      ∧ r.world.heap = w.heap := by
  unfold macdrv_vkCreateWin32SurfaceKHR
  simp only [ne_eq, hchild, not_false_eq_true, if_true]
  exact ⟨_, rfl, rfl, rfl, rfl, rfl⟩

/-- Witness for C19: a child window, every later collaborator willing. -/
theorem C19_create_surface_child_window_witness :
    child_window_env.GetAncestor (VkWin32SurfaceCreateInfoKHR.mk 7).hwnd
        ≠ child_window_env.GetDesktopWindow
      ∧ (∃ r, macdrv_vkCreateWin32SurfaceKHR child_window_env 2 ⟨7⟩ 0 World.empty = some r
          ∧ r.res = VK_ERROR_INCOMPATIBLE_DRIVER
          ∧ r.surface = none
          ∧ r.world.trace = World.empty.trace
          ∧ r.world.heap = World.empty.heap)
      ∧ (macdrv_vkCreateWin32SurfaceKHR child_window_env 2 ⟨7⟩ 0 World.empty).map
          (fun r => (r.res, r.surface, r.world.trace)) = some (-9, none, []) :=
  ⟨by decide, C19_create_surface_child_window child_window_env 2 0 ⟨7⟩ World.empty (by decide),
    by decide⟩

/-- C20: when the `surface` member of the caller's descriptor is the handle of
a live composite object, `macdrv_vkCreateSwapchainKHR` makes exactly one
collaborator call, the host's create-swapchain, with the caller's device, a
descriptor that is the caller's in every member except `surface`, which is
the native surface stored in the composite, and a null allocator whatever
allocator the caller passed; it returns the host's result and hands on what
the host stored through `swapchain`; the heap is as it was, and after the call
the caller's descriptor is what it was before it, its `surface` member still
the handle. -/
theorem C20_create_swapchain_substitutes_surface
    (host : Nat → VkSwapchainCreateInfoKHR → Int × Option Nat)
    (device allocator : Nat) (ci : VkSwapchainCreateInfoKHR) (obj : wine_vk_surface)
    (w : World) (hobj : w.heap (surface_from_handle ci.surface) = some obj) :
    ∃ r, macdrv_vkCreateSwapchainKHR host device ci allocator w = some r
      ∧ r.res = (host device { surface := obj.surface, others := ci.others }).1
      ∧ r.swapchain = (host device { surface := obj.surface, others := ci.others }).2
      ∧ r.world.trace = w.trace ++
          [Event.pvkCreateSwapchainKHR device { surface := obj.surface, others := ci.others } 0
            (host device { surface := obj.surface, others := ci.others }).1
            (host device { surface := obj.surface, others := ci.others }).2]
      ∧ r.world.heap = w.heap
      ∧ r.create_info = ci := by
  unfold macdrv_vkCreateSwapchainKHR
  simp only [hobj]
  exact ⟨_, rfl, rfl, rfl, rfl, rfl, rfl⟩

/-- Witness for C20: the handle 8 of a complete composite whose native surface
is 9, with a caller allocator 13. -/
theorem C20_create_swapchain_substitutes_surface_witness :
    world_with_surface.heap (surface_from_handle
        (VkSwapchainCreateInfoKHR.mk 8 [1, 2, 3]).surface)
        = some (wine_vk_surface.mk 5 6 9)
      ∧ (∃ r, macdrv_vkCreateSwapchainKHR host_creates_swapchain 10 ⟨8, [1, 2, 3]⟩ 13
            world_with_surface = some r
          ∧ r.res = (host_creates_swapchain 10
              { surface := (wine_vk_surface.mk 5 6 9).surface,
                others := (VkSwapchainCreateInfoKHR.mk 8 [1, 2, 3]).others }).1
          ∧ r.swapchain = (host_creates_swapchain 10
              { surface := (wine_vk_surface.mk 5 6 9).surface,
                others := (VkSwapchainCreateInfoKHR.mk 8 [1, 2, 3]).others }).2
          ∧ r.world.trace = world_with_surface.trace ++
              [Event.pvkCreateSwapchainKHR 10
                { surface := (wine_vk_surface.mk 5 6 9).surface,
                  others := (VkSwapchainCreateInfoKHR.mk 8 [1, 2, 3]).others } 0
                (host_creates_swapchain 10
                  { surface := (wine_vk_surface.mk 5 6 9).surface,
                    others := (VkSwapchainCreateInfoKHR.mk 8 [1, 2, 3]).others }).1
                (host_creates_swapchain 10
                  { surface := (wine_vk_surface.mk 5 6 9).surface,
                    others := (VkSwapchainCreateInfoKHR.mk 8 [1, 2, 3]).others }).2]
          ∧ r.world.heap = world_with_surface.heap
          ∧ r.create_info = VkSwapchainCreateInfoKHR.mk 8 [1, 2, 3])
      ∧ (macdrv_vkCreateSwapchainKHR host_creates_swapchain 10 ⟨8, [1, 2, 3]⟩ 13
            world_with_surface).map
          (fun r => (r.res, r.swapchain, r.world.trace, r.create_info))
          = some (0, some 11,
              [Event.pvkCreateSwapchainKHR 10 ⟨9, [1, 2, 3]⟩ 0 0 (some 11)],
              ⟨8, [1, 2, 3]⟩) :=
  ⟨rfl,
    C20_create_swapchain_substitutes_surface host_creates_swapchain 10 13 ⟨8, [1, 2, 3]⟩
      (wine_vk_surface.mk 5 6 9) world_with_surface rfl,
    by decide⟩

/-! ## Proc-address wrappers -/

/-- The shim's device-scoped lookup resolves exactly the six device-level
names. -/
theorem macdrv_device_lookup_resolves_iff (name : Option String) :
    macdrv_get_vk_device_proc_addr name ≠ FnPtr.null ↔
      ∃ s, s ∈ device_level_names ∧ name = some s := by
  cases name with
  | none => simp [macdrv_get_vk_device_proc_addr, get_vulkan_driver_device_proc_addr]
  | some s =>
    unfold macdrv_get_vk_device_proc_addr
    rw [device_proc_addr_eq_table_entry]
    by_cases hm : s ∈ device_level_names
    · rw [if_pos hm, macdrv_table_entry_ne_null]
      have hd : s ∈ dispatch_names := by
        unfold dispatch_names
        simp [hm]
      simp [hm, hd]
    · rw [if_neg hm]
      simp [hm]

/-- C21: each proc-address wrapper returns the shim's own pointer, without
calling the host, when the shim's lookup resolves the name, and otherwise
calls the host's entry point once, with the handle and the name it was given,
and returns exactly what the host returns. The device-scoped lookup resolves
the six device-level names; the instance-scoped lookup resolves the seventeen
dispatch names with an instance and the two instance-independent names
without one. So the host is asked for every name without the `vk` prefix and
for every instance-bound name queried with a null instance. -/
theorem C21_proc_addr_wrappers_prefer_shim (host : Nat → Option String → FnPtr)
    (handle : Nat) (name : Option String) :
    (macdrv_get_vk_device_proc_addr name ≠ FnPtr.null →
        macdrv_vkGetDeviceProcAddr host handle name
          = { proc_addr := macdrv_get_vk_device_proc_addr name, trace := [] })
      ∧ (macdrv_get_vk_device_proc_addr name = FnPtr.null →
          macdrv_vkGetDeviceProcAddr host handle name
            = { proc_addr := host handle name
                trace := [Event.pvkGetDeviceProcAddr handle name (host handle name)] })
      ∧ (macdrv_get_vk_instance_proc_addr handle name ≠ FnPtr.null →
          macdrv_vkGetInstanceProcAddr host handle name
            = { proc_addr := macdrv_get_vk_instance_proc_addr handle name, trace := [] })
      ∧ (macdrv_get_vk_instance_proc_addr handle name = FnPtr.null →
          macdrv_vkGetInstanceProcAddr host handle name
            = { proc_addr := host handle name
                trace := [Event.pvkGetInstanceProcAddr handle name (host handle name)] })
      ∧ (∀ s, s ∈ device_level_names →
          macdrv_vkGetDeviceProcAddr host handle (some s)
            = { proc_addr := table_entry macdrv_vulkan_funcs s, trace := [] })
      ∧ (∀ s, s ∈ dispatch_names → handle ≠ 0 →
          macdrv_vkGetInstanceProcAddr host handle (some s)
            = { proc_addr := table_entry macdrv_vulkan_funcs s, trace := [] })
      ∧ (∀ s, s.data.take 2 ≠ ['v', 'k'] →
          macdrv_vkGetDeviceProcAddr host handle (some s)
              = { proc_addr := host handle (some s)
                  trace := [Event.pvkGetDeviceProcAddr handle (some s)
                    (host handle (some s))] }
            ∧ macdrv_vkGetInstanceProcAddr host handle (some s)
              = { proc_addr := host handle (some s)
                  trace := [Event.pvkGetInstanceProcAddr handle (some s)
                    (host handle (some s))] })
      ∧ (∀ s, s ∈ instance_bound_names →
          macdrv_vkGetInstanceProcAddr host 0 (some s)
            = { proc_addr := host 0 (some s)
                trace := [Event.pvkGetInstanceProcAddr 0 (some s) (host 0 (some s))] }) := by
  have hdev_pos : ∀ (n : Option String), macdrv_get_vk_device_proc_addr n ≠ FnPtr.null →
      macdrv_vkGetDeviceProcAddr host handle n
        = { proc_addr := macdrv_get_vk_device_proc_addr n, trace := [] } := by
    intro n h
    unfold macdrv_vkGetDeviceProcAddr
    simp only [h, ne_eq, not_false_eq_true, if_true]
  have hdev_neg : ∀ (n : Option String), macdrv_get_vk_device_proc_addr n = FnPtr.null →
      macdrv_vkGetDeviceProcAddr host handle n
        = { proc_addr := host handle n
            trace := [Event.pvkGetDeviceProcAddr handle n (host handle n)] } := by
    intro n h
    unfold macdrv_vkGetDeviceProcAddr
    simp only [h, ne_eq, not_true_eq_false, if_false]
  have hinst_pos : ∀ (i : Nat) (n : Option String),
      macdrv_get_vk_instance_proc_addr i n ≠ FnPtr.null →
      macdrv_vkGetInstanceProcAddr host i n
        = { proc_addr := macdrv_get_vk_instance_proc_addr i n, trace := [] } := by
    intro i n h
    unfold macdrv_vkGetInstanceProcAddr
    simp only [h, ne_eq, not_false_eq_true, if_true]
  have hinst_neg : ∀ (i : Nat) (n : Option String),
      macdrv_get_vk_instance_proc_addr i n = FnPtr.null →
      macdrv_vkGetInstanceProcAddr host i n
        = { proc_addr := host i n
            trace := [Event.pvkGetInstanceProcAddr i n (host i n)] } := by
    intro i n h
    unfold macdrv_vkGetInstanceProcAddr
    simp only [h, ne_eq, not_true_eq_false, if_false]
  refine ⟨hdev_pos name, hdev_neg name, hinst_pos handle name, hinst_neg handle name,
    ?_, ?_, ?_, ?_⟩
  · intro s hs
    have hval : macdrv_get_vk_device_proc_addr (some s) = table_entry macdrv_vulkan_funcs s := by
      unfold macdrv_get_vk_device_proc_addr
      rw [device_proc_addr_eq_table_entry, if_pos hs]
    have hne : macdrv_get_vk_device_proc_addr (some s) ≠ FnPtr.null :=
      (macdrv_device_lookup_resolves_iff (some s)).mpr ⟨s, hs, rfl⟩
    rw [hdev_pos (some s) hne, hval]
  · intro s hs hh
    have hval : macdrv_get_vk_instance_proc_addr handle (some s)
        = table_entry macdrv_vulkan_funcs s := by
      unfold macdrv_get_vk_instance_proc_addr
      exact instance_proc_addr_eq_table_entry _ handle s hh
    have hne : macdrv_get_vk_instance_proc_addr handle (some s) ≠ FnPtr.null := by
      rw [hval, macdrv_table_entry_ne_null]
      exact hs
    rw [hinst_pos handle (some s) hne, hval]
  · intro s hs
    have hp := prefix_test_fails s hs
    constructor
    · apply hdev_neg
      unfold macdrv_get_vk_device_proc_addr get_vulkan_driver_device_proc_addr
      dsimp only
      rw [if_pos hp]
    · apply hinst_neg
      unfold macdrv_get_vk_instance_proc_addr get_vulkan_driver_instance_proc_addr
      dsimp only
      rw [if_pos hp]
  · intro s hs
    apply hinst_neg
    unfold macdrv_get_vk_instance_proc_addr
    rw [instance_proc_addr_null_instance]
    rw [mem_instance_bound_names] at hs
    rcases hs with h | h | h | h | h | h | h | h | h <;> subst h <;> simp

/-- Witness for C21: a shim name is answered by the shim without a host call;
a host name and an instance-bound name asked with a null instance go to the
host. -/
theorem C21_proc_addr_wrappers_prefer_shim_witness :
    (macdrv_get_vk_instance_proc_addr 0 (some "vkDestroyInstance") = FnPtr.null →
        macdrv_vkGetInstanceProcAddr host_proc_addr 0 (some "vkDestroyInstance")
          = { proc_addr := host_proc_addr 0 (some "vkDestroyInstance")
              trace := [Event.pvkGetInstanceProcAddr 0 (some "vkDestroyInstance")
                (host_proc_addr 0 (some "vkDestroyInstance"))] })
      ∧ macdrv_get_vk_instance_proc_addr 0 (some "vkDestroyInstance") = FnPtr.null
      ∧ macdrv_vkGetDeviceProcAddr host_proc_addr 7 (some "vkQueuePresentKHR")
          = { proc_addr := FnPtr.macdrv MacdrvProc.macdrv_vkQueuePresentKHR, trace := [] }
      ∧ macdrv_vkGetDeviceProcAddr host_proc_addr 7 (some "vkCreateDevice")
          = { proc_addr := FnPtr.host 100
              trace := [Event.pvkGetDeviceProcAddr 7 (some "vkCreateDevice")
                (FnPtr.host 100)] }
      ∧ macdrv_vkGetInstanceProcAddr host_proc_addr 7 (some "vkDestroyInstance")
          = { proc_addr := FnPtr.macdrv MacdrvProc.macdrv_vkDestroyInstance, trace := [] }
      ∧ macdrv_vkGetInstanceProcAddr host_proc_addr 0 (some "vkDestroyInstance")
          = { proc_addr := FnPtr.null
              trace := [Event.pvkGetInstanceProcAddr 0 (some "vkDestroyInstance")
                FnPtr.null] }
      ∧ macdrv_vkGetInstanceProcAddr host_proc_addr 7 (some "glGetString")
          = { proc_addr := FnPtr.null
              trace := [Event.pvkGetInstanceProcAddr 7 (some "glGetString") FnPtr.null] } :=
  ⟨(C21_proc_addr_wrappers_prefer_shim host_proc_addr 0 (some "vkDestroyInstance")).2.2.2.1,
    by decide, by decide, by decide, by decide, by decide, by decide⟩

/-! ## Surface lifecycle: host calls of the unwind -/

/-- C22: on a top-level window whose window-data record was found and whose
composite object was allocated, when the device or the view cannot be had the
host's native-surface creation is not called, and the only host call is one
destroy-surface, with the null native handle, made by the unwind before any
view or device is released; when the allocation of the composite object
itself fails, no host entry point is called. -/
theorem C22_create_surface_unwind_host_calls (env : SurfaceEnv) (inst allocator : Nat)
    (ci : VkWin32SurfaceCreateInfoKHR) (w : World)
    (htop : env.GetAncestor ci.hwnd = env.GetDesktopWindow)
    (hdata : env.step1_data ci ≠ 0) :
    (env.heap_alloc_zero ≠ 0 →
        env.macdrv_create_metal_device = 0 ∨ env.step4_view ci = 0 →
        ∃ r before after, macdrv_vkCreateWin32SurfaceKHR env inst ci allocator w = some r
          ∧ r.world.trace = w.trace ++ (before ++ Event.pvkDestroySurfaceKHR inst 0 0 :: after)
          ∧ native_surface_creations (before ++ Event.pvkDestroySurfaceKHR inst 0 0 :: after) = 0
          ∧ destroyed_surfaces (before ++ Event.pvkDestroySurfaceKHR inst 0 0 :: after) = 1
          ∧ host_calls (before ++ Event.pvkDestroySurfaceKHR inst 0 0 :: after) = 1
          ∧ released_views before = 0 ∧ released_devices before = 0
          ∧ released_views after = acquired_views before
          ∧ released_devices after = acquired_devices before)
      ∧ (env.heap_alloc_zero = 0 →
          ∃ r t, macdrv_vkCreateWin32SurfaceKHR env inst ci allocator w = some r
            ∧ r.world.trace = w.trace ++ t
            ∧ host_calls t = 0) := by
  constructor
  · intro halloc hfail
    by_cases hdev : env.macdrv_create_metal_device = 0
    · obtain ⟨r, hr, _, _, htr, _⟩ :=
        create_surface_device_fails env inst allocator ci w htop hdata halloc hdev
      refine ⟨r,
        [Event.get_win_data ci.hwnd (env.step1_data ci),
         Event.heap_alloc_zero env.heap_alloc_zero,
         Event.macdrv_create_metal_device 0],
        [Event.heap_free env.heap_alloc_zero,
         Event.release_win_data (env.step1_data ci)], hr, ?_, ?_⟩
      · rw [htr]; rfl
      · simp [native_surface_creations, destroyed_surfaces, host_calls, released_views,
          released_devices, acquired_views, acquired_devices]
    · have hview : env.step4_view ci = 0 := by
        rcases hfail with h | h
        · exact absurd h hdev
        · exact h
      obtain ⟨r, hr, _, _, htr, _⟩ :=
        create_surface_view_fails env inst allocator ci w htop hdata halloc hdev hview
      refine ⟨r,
        [Event.get_win_data ci.hwnd (env.step1_data ci),
         Event.heap_alloc_zero env.heap_alloc_zero,
         Event.macdrv_create_metal_device env.macdrv_create_metal_device,
         Event.macdrv_view_get_metal_view (env.client_cocoa_view (env.step1_data ci))
           env.macdrv_create_metal_device 0],
        [Event.macdrv_release_metal_device env.macdrv_create_metal_device,
         Event.heap_free env.heap_alloc_zero,
         Event.release_win_data (env.step1_data ci)], hr, ?_, ?_⟩
      · rw [htr]; rfl
      · simp [native_surface_creations, destroyed_surfaces, host_calls, released_views,
          released_devices, acquired_views, acquired_devices, hdev]
  · intro halloc
    obtain ⟨r, hr, _, _, htr, _⟩ :=
      create_surface_alloc_fails env inst allocator ci w htop hdata halloc
    refine ⟨r, _, hr, htr, ?_⟩
    simp [host_calls]

/-- Witness for C22: the view cannot be had for device 5; and the device
cannot be had. -/
theorem C22_create_surface_unwind_host_calls_witness :
    ((failing_env 5).heap_alloc_zero ≠ 0 →
        (failing_env 5).macdrv_create_metal_device = 0 ∨ (failing_env 5).step4_view ⟨7⟩ = 0 →
        ∃ r before after,
          macdrv_vkCreateWin32SurfaceKHR (failing_env 5) 2 ⟨7⟩ 0 World.empty = some r
          ∧ r.world.trace
              = World.empty.trace ++ (before ++ Event.pvkDestroySurfaceKHR 2 0 0 :: after)
          ∧ native_surface_creations (before ++ Event.pvkDestroySurfaceKHR 2 0 0 :: after) = 0
          ∧ destroyed_surfaces (before ++ Event.pvkDestroySurfaceKHR 2 0 0 :: after) = 1
          ∧ host_calls (before ++ Event.pvkDestroySurfaceKHR 2 0 0 :: after) = 1
          ∧ released_views before = 0 ∧ released_devices before = 0
          ∧ released_views after = acquired_views before
          ∧ released_devices after = acquired_devices before)
      ∧ (macdrv_vkCreateWin32SurfaceKHR (failing_env 5) 2 ⟨7⟩ 0 World.empty).map
          (fun r => (r.res, r.world.trace))
        = some (-1,
            [Event.get_win_data 7 3, Event.heap_alloc_zero 8,
             Event.macdrv_create_metal_device 5,
             Event.macdrv_view_get_metal_view 4 5 0,
             Event.pvkDestroySurfaceKHR 2 0 0,
             Event.macdrv_release_metal_device 5,
             Event.heap_free 8,
             Event.release_win_data 3])
      ∧ (macdrv_vkCreateWin32SurfaceKHR (failing_env 0) 2 ⟨7⟩ 0 World.empty).map
          (fun r => (r.res, r.world.trace))
        = some (-1,
            [Event.get_win_data 7 3, Event.heap_alloc_zero 8,
             Event.macdrv_create_metal_device 0,
             Event.pvkDestroySurfaceKHR 2 0 0,
             Event.heap_free 8,
             Event.release_win_data 3]) :=
  ⟨(C22_create_surface_unwind_host_calls (failing_env 5) 2 0 ⟨7⟩ World.empty rfl
      (by decide)).1,
    by decide, by decide⟩

/-! ## Extension translator: fixed members and round trip -/

/-- Whatever the conversion returns, the fixed members of the translated
descriptor are those of the input, no layer is declared, and the caller's
descriptor is left as it was. -/
theorem convert_create_info_fixed_members (calloc_ok : Bool) (src : VkInstanceCreateInfo)
    (r : ConvertResult) (hr : wine_vk_instance_convert_create_info calloc_ok src = some r) :
    r.dst.sType = src.sType ∧ r.dst.flags = src.flags
      ∧ r.dst.pApplicationInfo = src.pApplicationInfo ∧ r.dst.pNext = src.pNext
      ∧ r.dst.enabledLayerCount = 0 ∧ r.dst.ppEnabledLayerNames = none
      ∧ r.src = src := by
  unfold wine_vk_instance_convert_create_info at hr
  by_cases hn : src.enabledExtensionCount > 0
  · rw [if_pos hn] at hr
    by_cases hc : calloc_ok = true
    · rw [if_neg (by simp [hc])] at hr
      cases hnames : src.ppEnabledExtensionNames with
      | none => rw [hnames] at hr; simp at hr
      | some names =>
        rw [hnames] at hr
        dsimp only at hr
        cases hloop : convert_extension_names names 0 src.enabledExtensionCount [] with
        | none => rw [hloop] at hr; simp at hr
        | some out =>
          rw [hloop] at hr
          dsimp only at hr
          cases hr
          exact ⟨rfl, rfl, rfl, rfl, rfl, rfl, rfl⟩
    · rw [if_pos (by simp [hc])] at hr
      cases hr
      exact ⟨rfl, rfl, rfl, rfl, rfl, rfl, rfl⟩
  · rw [if_neg hn] at hr
    cases hr
    exact ⟨rfl, rfl, rfl, rfl, rfl, rfl, rfl⟩

/-- The conversion returns on every descriptor whose declared names can be
read. -/
theorem convert_create_info_returns (calloc_ok : Bool) (src : VkInstanceCreateInfo)
    (hread : extension_names_readable src = true) :
    ∃ r, wine_vk_instance_convert_create_info calloc_ok src = some r := by
  unfold wine_vk_instance_convert_create_info
  by_cases hn : src.enabledExtensionCount > 0
  · rw [if_pos hn]
    by_cases hc : calloc_ok = true
    · rw [if_neg (by simp [hc])]
      unfold extension_names_readable at hread
      cases hnames : src.ppEnabledExtensionNames with
      | none =>
        rw [hnames] at hread
        simp at hread
        omega
      | some names =>
        rw [hnames] at hread
        simp only [decide_eq_true_eq] at hread
        dsimp only
        rw [convert_extension_names_eq names src.enabledExtensionCount 0 [] (by omega)]
        exact ⟨_, rfl⟩
    · rw [if_pos (by simp [hc])]
      exact ⟨_, rfl⟩
  · rw [if_neg hn]
    exact ⟨_, rfl⟩

/-- C23: on every descriptor whose declared names can be read, whether or not
the allocation succeeds, the conversion returns, and the translated
descriptor has the `sType`, `flags`, `pApplicationInfo` and `pNext` of the
input, declares zero layers and has a null layer-name list, whatever layers
the input declares; after the call the caller's descriptor is what it was
before it, and so are its extension-name list and its layer-name list. -/
theorem C23_convert_create_info_fixed_members (calloc_ok : Bool) (src : VkInstanceCreateInfo)
    (hread : extension_names_readable src = true) :
    ∃ r, wine_vk_instance_convert_create_info calloc_ok src = some r
      ∧ r.dst.sType = src.sType ∧ r.dst.flags = src.flags
      ∧ r.dst.pApplicationInfo = src.pApplicationInfo ∧ r.dst.pNext = src.pNext
      ∧ r.dst.enabledLayerCount = 0 ∧ r.dst.ppEnabledLayerNames = none
      ∧ r.src = src
      ∧ r.src.ppEnabledExtensionNames = src.ppEnabledExtensionNames
      ∧ r.src.ppEnabledLayerNames = src.ppEnabledLayerNames := by
  obtain ⟨r, hr⟩ := convert_create_info_returns calloc_ok src hread
  obtain ⟨h1, h2, h3, h4, h5, h6, h7⟩ := convert_create_info_fixed_members calloc_ok src r hr
  exact ⟨r, hr, h1, h2, h3, h4, h5, h6, h7, by rw [h7], by rw [h7]⟩

/-- Witness for C23: a descriptor that declares a layer and an extension. -/
theorem C23_convert_create_info_fixed_members_witness :
    extension_names_readable
        { sType := 1, pNext := 2, flags := 3, pApplicationInfo := 4,
          enabledLayerCount := 1, ppEnabledLayerNames := some ["VK_LAYER_KHRONOS_validation"],
          enabledExtensionCount := 1,
          ppEnabledExtensionNames := some ["VK_KHR_win32_surface"] } = true
      ∧ (∃ r, wine_vk_instance_convert_create_info true
            { sType := 1, pNext := 2, flags := 3, pApplicationInfo := 4,
              enabledLayerCount := 1,
              ppEnabledLayerNames := some ["VK_LAYER_KHRONOS_validation"],
              enabledExtensionCount := 1,
              ppEnabledExtensionNames := some ["VK_KHR_win32_surface"] } = some r
          ∧ r.dst.sType = 1 ∧ r.dst.flags = 3
          ∧ r.dst.pApplicationInfo = 4 ∧ r.dst.pNext = 2
          ∧ r.dst.enabledLayerCount = 0 ∧ r.dst.ppEnabledLayerNames = none
          ∧ r.src = { sType := 1, pNext := 2, flags := 3, pApplicationInfo := 4,
                      enabledLayerCount := 1,
                      ppEnabledLayerNames := some ["VK_LAYER_KHRONOS_validation"],
                      enabledExtensionCount := 1,
                      ppEnabledExtensionNames := some ["VK_KHR_win32_surface"] }
          ∧ r.src.ppEnabledExtensionNames = some ["VK_KHR_win32_surface"]
          ∧ r.src.ppEnabledLayerNames = some ["VK_LAYER_KHRONOS_validation"])
      ∧ wine_vk_instance_convert_create_info true
            { sType := 1, pNext := 2, flags := 3, pApplicationInfo := 4,
              enabledLayerCount := 1,
              ppEnabledLayerNames := some ["VK_LAYER_KHRONOS_validation"],
              enabledExtensionCount := 1,
              ppEnabledExtensionNames := some ["VK_KHR_win32_surface"] }
          = some { res := 0
                   dst := { sType := 1, pNext := 2, flags := 3, pApplicationInfo := 4,
                            enabledLayerCount := 0, ppEnabledLayerNames := none,
                            enabledExtensionCount := 1,
                            ppEnabledExtensionNames := some ["VK_MVK_macos_surface"] }
                   trace := [Event.heap_calloc 1 true]
                   src := { sType := 1, pNext := 2, flags := 3, pApplicationInfo := 4,
                            enabledLayerCount := 1,
                            ppEnabledLayerNames := some ["VK_LAYER_KHRONOS_validation"],
                            enabledExtensionCount := 1,
                            ppEnabledExtensionNames := some ["VK_KHR_win32_surface"] } } :=
  ⟨by decide,
    C23_convert_create_info_fixed_members true
      { sType := 1, pNext := 2, flags := 3, pApplicationInfo := 4,
        enabledLayerCount := 1, ppEnabledLayerNames := some ["VK_LAYER_KHRONOS_validation"],
        enabledExtensionCount := 1,
        ppEnabledExtensionNames := some ["VK_KHR_win32_surface"] } (by decide),
    by decide⟩

/-- Translating for creation what the enumeration fix-up wrote gives back a
host name, provided the host name is not the generic surface name. -/
theorem translate_fixup_name (p : VkExtensionProperties)
    (h : p.extensionName ≠ "VK_KHR_win32_surface") :
    (fun s => if s = "VK_KHR_win32_surface" then "VK_MVK_macos_surface" else s)
        ((fun q : VkExtensionProperties =>
            if q.extensionName = "VK_MVK_macos_surface" then
              ({ extensionName := "VK_KHR_win32_surface", specVersion := 6 } :
                VkExtensionProperties)
            else q) p).extensionName
      = p.extensionName := by
  by_cases hm : p.extensionName = "VK_MVK_macos_surface"
  · simp [hm]
  · simp [hm, h]

/-- C24: let the host enumerate `h.count` extensions, none of them named
`VK_KHR_win32_surface` (non-negative result, the count within the array, the
name field wide enough for the substituted name). Enabling at instance
creation exactly the names that `macdrv_vkEnumerateInstanceExtensionProperties`
hands back, the descriptor that `wine_vk_instance_convert_create_info` builds
for the host declares `h.count` extensions and presents the host's own names,
entry for entry. -/
theorem C24_enumerate_then_convert_restores_host_names (name_size : Nat)
    (host : Option String → Nat → Option (List VkExtensionProperties) → HostEnumeration)
    (count : Nat) (buf : List VkExtensionProperties) (h : HostEnumeration)
    (info : VkInstanceCreateInfo)
    (hhost : host none count (some buf) = h)
    (hsz : "VK_KHR_win32_surface".length < name_size)
    (hres : 0 ≤ h.res) (hcount : h.count ≤ h.properties.length)
    (hkhr : "VK_KHR_win32_surface" ∉
      (h.properties.take h.count).map (fun p => p.extensionName)) :
    ∃ e out c,
      macdrv_vkEnumerateInstanceExtensionProperties name_size host none count (some buf)
          = some e
        ∧ e.properties = some out
        ∧ wine_vk_instance_convert_create_info true
            { info with enabledExtensionCount := e.count
                        ppEnabledExtensionNames :=
                          some ((out.take e.count).map (fun p => p.extensionName)) }
          = some c
        ∧ c.res = VK_SUCCESS
        ∧ c.dst.enabledExtensionCount = h.count
        ∧ enabled_extensions c.dst
            = (h.properties.take h.count).map (fun p => p.extensionName) := by
  obtain ⟨out, hout, hlen, hget⟩ :=
    fixup_extension_properties_spec name_size hsz h.count 0 h.properties (by omega)
  have henum :
      macdrv_vkEnumerateInstanceExtensionProperties name_size host none count (some buf)
        = some { res := h.res, count := h.count, properties := some out,
                 trace := [Event.pvkEnumerateInstanceExtensionProperties none count
                   (some buf)] } := by
    unfold macdrv_vkEnumerateInstanceExtensionProperties
    simp only [Option.isSome_none, Bool.false_eq_true, if_false, hhost, not_lt.mpr hres, hout]
  -- the names handed back, translated, are the host's names
  have hnames : ((out.take h.count).map (fun p => p.extensionName)).map
        (fun s => if s = "VK_KHR_win32_surface" then "VK_MVK_macos_surface" else s)
      = (h.properties.take h.count).map (fun p => p.extensionName) := by
    apply List.ext_getElem?
    intro j
    simp only [List.getElem?_map, List.getElem?_take]
    by_cases hj : j < h.count
    · simp only [hj, if_true]
      rw [hget j, if_pos (by omega)]
      have hjl : j < h.properties.length := by omega
      rw [List.getElem?_eq_getElem hjl]
      simp only [Option.map_some']
      congr 1
      apply translate_fixup_name
      intro hc
      apply hkhr
      rw [List.mem_map]
      refine ⟨h.properties[j], ?_, hc⟩
      rw [List.mem_iff_getElem]
      exact ⟨j, by rw [List.length_take]; omega, by rw [List.getElem_take]⟩
    · simp only [hj, if_false, Option.map_none']
  have hlen_names : ((out.take h.count).map (fun p => p.extensionName)).length = h.count := by
    rw [List.length_map, List.length_take, hlen]
    omega
  by_cases hzero : h.count = 0
  · refine ⟨_, out,
      { res := VK_SUCCESS
        dst := { sType := info.sType, pNext := info.pNext, flags := info.flags,
                 pApplicationInfo := info.pApplicationInfo,
                 enabledLayerCount := 0, ppEnabledLayerNames := none,
                 enabledExtensionCount := 0, ppEnabledExtensionNames := none }
        trace := []
        src := { info with enabledExtensionCount := h.count
                           ppEnabledExtensionNames :=
                             some ((out.take h.count).map (fun p => p.extensionName)) } },
      henum, rfl, ?_, rfl, ?_, ?_⟩
    · unfold wine_vk_instance_convert_create_info
      simp only [hzero, gt_iff_lt, lt_self_iff_false, if_false]
    · exact hzero.symm
    · simp [enabled_extensions, hzero]
  · have hloop := convert_extension_names_eq
      ((out.take h.count).map (fun p => p.extensionName)) h.count 0 [] (by omega)
    rw [List.drop_zero, List.nil_append] at hloop
    have htake : List.take h.count ((out.take h.count).map (fun p => p.extensionName))
        = (out.take h.count).map (fun p => p.extensionName) := by
      apply List.take_of_length_le
      omega
    rw [htake, hnames] at hloop
    refine ⟨_, out,
      { res := VK_SUCCESS
        dst := { sType := info.sType, pNext := info.pNext, flags := info.flags,
                 pApplicationInfo := info.pApplicationInfo,
                 enabledLayerCount := 0, ppEnabledLayerNames := none,
                 enabledExtensionCount := h.count,
                 ppEnabledExtensionNames :=
                   some ((h.properties.take h.count).map (fun p => p.extensionName)) }
        trace := [Event.heap_calloc h.count true]
        src := { info with enabledExtensionCount := h.count
                           ppEnabledExtensionNames :=
                             some ((out.take h.count).map (fun p => p.extensionName)) } },
      henum, rfl, ?_, rfl, ?_, ?_⟩
    · unfold wine_vk_instance_convert_create_info
      have hpos : h.count > 0 := by omega
      simp only [hpos, if_true, not_true_eq_false, if_false, hloop]
    · rfl
    · unfold enabled_extensions
      simp only
      apply List.take_of_length_le
      rw [List.length_map, List.length_take]
      omega
/-- Witness for C24: a host with three extensions, the platform-native
surface extension among them. -/
theorem C24_enumerate_then_convert_restores_host_names_witness :
    (∃ e out c,
      macdrv_vkEnumerateInstanceExtensionProperties 256 host_enumerates_three none 3
            (some [⟨"", 0⟩, ⟨"", 0⟩, ⟨"", 0⟩])
          = some e
        ∧ e.properties = some out
        ∧ wine_vk_instance_convert_create_info true
            { (VkInstanceCreateInfo.mk 1 0 0 0 0 none 0 none) with
                enabledExtensionCount := e.count
                ppEnabledExtensionNames :=
                  some ((out.take e.count).map (fun p => p.extensionName)) }
          = some c
        ∧ c.res = VK_SUCCESS
        ∧ c.dst.enabledExtensionCount
            = (host_enumerates_three none 3 (some [⟨"", 0⟩, ⟨"", 0⟩, ⟨"", 0⟩])).count
        ∧ enabled_extensions c.dst
            = ((host_enumerates_three none 3
                  (some [⟨"", 0⟩, ⟨"", 0⟩, ⟨"", 0⟩])).properties.take
                (host_enumerates_three none 3 (some [⟨"", 0⟩, ⟨"", 0⟩, ⟨"", 0⟩])).count).map
              (fun p => p.extensionName))
      ∧ (macdrv_vkEnumerateInstanceExtensionProperties 256 host_enumerates_three none 3
            (some [⟨"", 0⟩, ⟨"", 0⟩, ⟨"", 0⟩])).map (fun e => e.properties)
          = some (some [⟨"VK_KHR_surface", 25⟩, ⟨"VK_KHR_win32_surface", 6⟩,
              ⟨"VK_EXT_debug_utils", 1⟩])
      ∧ (wine_vk_instance_convert_create_info true
            (VkInstanceCreateInfo.mk 1 0 0 0 0 none 3
              (some ["VK_KHR_surface", "VK_KHR_win32_surface", "VK_EXT_debug_utils"]))).map
          (fun c => enabled_extensions c.dst)
          = some ["VK_KHR_surface", "VK_MVK_macos_surface", "VK_EXT_debug_utils"] :=
  ⟨C24_enumerate_then_convert_restores_host_names 256 host_enumerates_three 3
      [⟨"", 0⟩, ⟨"", 0⟩, ⟨"", 0⟩] _ (VkInstanceCreateInfo.mk 1 0 0 0 0 none 0 none) rfl
      (by decide) (by decide) (by decide) (by decide),
    by decide, by decide⟩

end WineMacVulkan
